import Mathlib

/-!
# MotionIntensity

A shallow embedding of `Source/MotionIntensity/Public/MotionIntensity.h` and
`Source/MotionIntensity/Private/MotionIntensity.cpp`.

* `float` is idealised as an arbitrary linearly ordered field `α` with exact
  arithmetic (no rounding, no NaN, no infinities).
* Where rounding decides the result, the two axis aggregators are given a second
  time with every `float` operation passed through a rounding function `R`
  (`GetLinearMotionIntensityFromMotionDataRounded` and its angular twin).
* A reference parameter that the C++ code mutates (`ServiceData&`,
  `float& OutPrevious`, `OutMotionData&`) is passed in and returned.
* The engine primitives the code calls but does not define (`FMath::Sqrt`,
  `FMath::FInterpTo`, `FMath::VInterpTo`, `FMath::QInterpTo`,
  `FRotator::Quaternion`, `FQuat::AngularDistance`, `UE_SQRT_2`, `PI`) are the
  fields of a record `FMath α` that every operation takes as its first argument.
* `UE_LOG` has no effect on the values computed and is left out.
-/

namespace MotionIntensity

variable {α : Type}

/-! ## Engine value types -/

/-- The engine vector `FVector`. -/
structure FVector (α : Type) where
  X : α
  Y : α
  Z : α

/-- The engine quaternion `FQuat`. -/
structure FQuat (α : Type) where
  X : α
  Y : α
  Z : α
  W : α

/-- The engine rotator `FRotator`. -/
structure FRotator (α : Type) where
  Pitch : α
  Yaw : α
  Roll : α

/-- The constant `FVector::ZeroVector`. -/
def FVector.ZeroVector [Zero α] : FVector α := ⟨0, 0, 0⟩

/-- The constant `FQuat::Identity`. -/
def FQuat.Identity [Zero α] [One α] : FQuat α := ⟨0, 0, 0, 1⟩

/-- The engine operator `FVector::operator-`, taken componentwise. -/
def FVector.sub [Sub α] (a b : FVector α) : FVector α :=
  ⟨a.X - b.X, a.Y - b.Y, a.Z - b.Z⟩

/-- The engine primitives used by the library and not defined in it. -/
structure FMath (α : Type) where
  Sqrt : α → α
  UE_SQRT_2 : α
  PI : α
  FInterpTo : α → α → α → α → α
  VInterpTo : FVector α → FVector α → α → α → FVector α
  QInterpTo : FQuat α → FQuat α → α → α → FQuat α
  Quaternion : FRotator α → FQuat α
  AngularDistance : FQuat α → FQuat α → α

/-- The engine function `FMath::Square`. -/
def Square [Mul α] (x : α) : α := x * x

/-- The engine method `FVector::Length`: the root of the sum of the squared components. -/
def FVector.Length [Add α] [Mul α] (E : FMath α) (v : FVector α) : α :=
  E.Sqrt (v.X * v.X + v.Y * v.Y + v.Z * v.Z)

/-! ## Data model (`MotionIntensity.h`) -/

/-- The record `FMotionIntensityConfig`. -/
structure FMotionIntensityConfig (α : Type) where
  bCalculateLinearMotion : Bool
  MaxLinearVelocity : α
  bClampLinearVelocity : Bool
  LocationInterpolationSpeed : α
  LinearVelocityInterpolationSpeed : α
  LinearAccelerationInterpolationSpeed : α
  bCalculateAngularMotion : Bool
  MaxAngularVelocity : α
  bClampAngularVelocity : Bool
  RotationInterpolationSpeed : α
  AngularVelocityInterpolationSpeed : α
  AngularAccelerationInterpolationSpeed : α

/-- The record `FMotionIntensityServiceData`: the per-entity persistent state. -/
structure FMotionIntensityServiceData (α : Type) where
  bSetPreviousTransformToCurrent : Bool
  PreviousLocation : FVector α
  PreviousRotation : FQuat α
  PreviousLinearVelocity : α
  PreviousLinearAcceleration : α
  PreviousLinearJerk : α
  PreviousAngularVelocity : α
  PreviousAngularAcceleration : α
  PreviousAngularJerk : α

/-- The record `FMotionIntensityMotionData`: ten normalized channels. -/
structure FMotionIntensityMotionData (α : Type) where
  LinearVelocityNormalized : α
  PositiveLinearAccelerationNormalized : α
  NegativeLinearAccelerationNormalized : α
  PositiveLinearJerkNormalized : α
  NegativeLinearJerkNormalized : α
  AngularVelocityNormalized : α
  PositiveAngularAccelerationNormalized : α
  NegativeAngularAccelerationNormalized : α
  PositiveAngularJerkNormalized : α
  NegativeAngularJerkNormalized : α

/-- The record `FMotionIntensityCoefficients`: the multiplier and ten channel weights. -/
structure FMotionIntensityCoefficients (α : Type) where
  MotionIntensityMultiplier : α
  LinearVelocityCoefficient : α
  PositiveLinearAccelerationCoefficient : α
  NegativeLinearAccelerationCoefficient : α
  PositiveLinearJerkCoefficient : α
  NegativeLinearJerkCoefficient : α
  AngularVelocityCoefficient : α
  PositiveAngularAccelerationCoefficient : α
  NegativeAngularAccelerationCoefficient : α
  PositiveAngularJerkCoefficient : α
  NegativeAngularJerkCoefficient : α

section Model

variable [LinearOrderedField α]

/-- The default member initialisers of `FMotionIntensityConfig`. -/
def FMotionIntensityConfig.Default : FMotionIntensityConfig α :=
  { bCalculateLinearMotion := true
    MaxLinearVelocity := 1000
    bClampLinearVelocity := false
    LocationInterpolationSpeed := 10
    LinearVelocityInterpolationSpeed := 10
    LinearAccelerationInterpolationSpeed := 10
    bCalculateAngularMotion := true
    MaxAngularVelocity := 4
    bClampAngularVelocity := false
    RotationInterpolationSpeed := 10
    AngularVelocityInterpolationSpeed := 10
    AngularAccelerationInterpolationSpeed := 10 }

/-- The method `FMotionIntensityConfig::IsValid`. -/
def FMotionIntensityConfig.IsValid (c : FMotionIntensityConfig α) : Bool :=
  decide (c.MaxLinearVelocity > 0)
    && decide (c.LocationInterpolationSpeed > 0)
    && decide (c.LinearVelocityInterpolationSpeed > 0)
    && decide (c.LinearAccelerationInterpolationSpeed > 0)
    && decide (c.MaxAngularVelocity > 0)
    && decide (c.RotationInterpolationSpeed > 0)
    && decide (c.AngularVelocityInterpolationSpeed > 0)
    && decide (c.AngularAccelerationInterpolationSpeed > 0)

/-- The default member initialisers of `FMotionIntensityServiceData`. -/
def FMotionIntensityServiceData.Default : FMotionIntensityServiceData α :=
  { bSetPreviousTransformToCurrent := true
    PreviousLocation := FVector.ZeroVector
    PreviousRotation := FQuat.Identity
    PreviousLinearVelocity := 0
    PreviousLinearAcceleration := 0
    PreviousLinearJerk := 0
    PreviousAngularVelocity := 0
    PreviousAngularAcceleration := 0
    PreviousAngularJerk := 0 }

/-- The method `FMotionIntensityServiceData::Reset`, assigning the nine fields in order. -/
def FMotionIntensityServiceData.Reset (s : FMotionIntensityServiceData α) :
    FMotionIntensityServiceData α :=
  let s := { s with bSetPreviousTransformToCurrent := true }
  let s := { s with PreviousLocation := FVector.ZeroVector }
  let s := { s with PreviousRotation := FQuat.Identity }
  let s := { s with PreviousLinearVelocity := 0 }
  let s := { s with PreviousLinearAcceleration := 0 }
  let s := { s with PreviousLinearJerk := 0 }
  let s := { s with PreviousAngularVelocity := 0 }
  let s := { s with PreviousAngularAcceleration := 0 }
  { s with PreviousAngularJerk := 0 }

/-- The default member initialisers of `FMotionIntensityMotionData`: every channel is 0. -/
def FMotionIntensityMotionData.Default : FMotionIntensityMotionData α :=
  { LinearVelocityNormalized := 0
    PositiveLinearAccelerationNormalized := 0
    NegativeLinearAccelerationNormalized := 0
    PositiveLinearJerkNormalized := 0
    NegativeLinearJerkNormalized := 0
    AngularVelocityNormalized := 0
    PositiveAngularAccelerationNormalized := 0
    NegativeAngularAccelerationNormalized := 0
    PositiveAngularJerkNormalized := 0
    NegativeAngularJerkNormalized := 0 }

/-- The default member initialisers of `FMotionIntensityCoefficients`. -/
def FMotionIntensityCoefficients.Default : FMotionIntensityCoefficients α :=
  { MotionIntensityMultiplier := 1
    LinearVelocityCoefficient := 0
    PositiveLinearAccelerationCoefficient := 1
    NegativeLinearAccelerationCoefficient := 1
    PositiveLinearJerkCoefficient := 1
    NegativeLinearJerkCoefficient := 1
    AngularVelocityCoefficient := 0
    PositiveAngularAccelerationCoefficient := 1
    NegativeAngularAccelerationCoefficient := 1
    PositiveAngularJerkCoefficient := 1
    NegativeAngularJerkCoefficient := 1 }

/-- The method `FMotionIntensityCoefficients::IsValid`. -/
def FMotionIntensityCoefficients.IsValid (c : FMotionIntensityCoefficients α) : Bool :=
  decide (c.LinearVelocityCoefficient ≥ 0)
    && decide (c.PositiveLinearAccelerationCoefficient ≥ 0)
    && decide (c.NegativeLinearAccelerationCoefficient ≥ 0)
    && decide (c.PositiveLinearJerkCoefficient ≥ 0)
    && decide (c.NegativeLinearJerkCoefficient ≥ 0)
    && decide (c.AngularVelocityCoefficient ≥ 0)
    && decide (c.PositiveAngularAccelerationCoefficient ≥ 0)
    && decide (c.NegativeAngularAccelerationCoefficient ≥ 0)
    && decide (c.PositiveAngularJerkCoefficient ≥ 0)
    && decide (c.NegativeAngularJerkCoefficient ≥ 0)

/-! ## Private methods (`MotionIntensity.cpp`) -/

/-- The function `GetSmoothedDerivative`. Returns the derivative and the new content of
`OutPrevious`. -/
def GetSmoothedDerivative (E : FMath α) (Current OutPrevious DeltaTime InterpolationSpeed : α) :
    α × α :=
  if DeltaTime ≤ 0 then (0, OutPrevious)
  else
    let SmoothedValue := E.FInterpTo OutPrevious Current DeltaTime InterpolationSpeed
    let Derivative := (SmoothedValue - OutPrevious) / DeltaTime
    (Derivative, SmoothedValue)

/-- The function `GetLinearVelocitySmoothed`. Returns the speed and the new content of
`OutPrevious`. -/
def GetLinearVelocitySmoothed (E : FMath α) (Current OutPrevious : FVector α)
    (DeltaTime InterpolationSpeed : α) : α × FVector α :=
  if DeltaTime ≤ 0 then (0, OutPrevious)
  else
    let SmoothedValue := E.VInterpTo OutPrevious Current DeltaTime InterpolationSpeed
    let Derivative := (SmoothedValue.sub OutPrevious).Length E / DeltaTime
    (Derivative, SmoothedValue)

/-- The function `GetAngularVelocitySmoothed`. Returns the angular speed in revolutions per
time unit and the new content of `OutPrevious`. -/
def GetAngularVelocitySmoothed (E : FMath α) (Current OutPrevious : FQuat α)
    (DeltaTime InterpolationSpeed : α) : α × FQuat α :=
  if DeltaTime ≤ 0 then (0, OutPrevious)
  else
    let SmoothedValue := E.QInterpTo OutPrevious Current DeltaTime InterpolationSpeed
    let Revolutions := E.AngularDistance SmoothedValue OutPrevious / (2 * E.PI)
    (Revolutions / DeltaTime, SmoothedValue)

/-- The function `CalculateLinearMotionData`. Returns the new contents of `ServiceData` and
`OutMotionData`. -/
def CalculateLinearMotionData (E : FMath α) (CurrentLocation : FVector α) (DeltaTime : α)
    (Config : FMotionIntensityConfig α) (ServiceData : FMotionIntensityServiceData α)
    (OutMotionData : FMotionIntensityMotionData α) :
    FMotionIntensityServiceData α × FMotionIntensityMotionData α :=
  if DeltaTime ≤ 0 then (ServiceData, OutMotionData)
  else
    let v := GetLinearVelocitySmoothed E CurrentLocation ServiceData.PreviousLocation DeltaTime
      Config.LocationInterpolationSpeed
    let ServiceData := { ServiceData with PreviousLocation := v.2 }
    let OutMotionData :=
      { OutMotionData with LinearVelocityNormalized := v.1 / Config.MaxLinearVelocity }
    let OutMotionData :=
      if Config.bClampLinearVelocity then
        { OutMotionData with
          LinearVelocityNormalized := min 1 OutMotionData.LinearVelocityNormalized }
      else OutMotionData
    let a := GetSmoothedDerivative E OutMotionData.LinearVelocityNormalized
      ServiceData.PreviousLinearVelocity DeltaTime Config.LinearVelocityInterpolationSpeed
    let ServiceData := { ServiceData with PreviousLinearVelocity := a.2 }
    let LinearAccelerationNormalized := a.1 / Config.LinearVelocityInterpolationSpeed
    let j := GetSmoothedDerivative E LinearAccelerationNormalized
      ServiceData.PreviousLinearAcceleration DeltaTime Config.LinearAccelerationInterpolationSpeed
    let ServiceData := { ServiceData with PreviousLinearAcceleration := j.2 }
    let LinearJerkNormalized := j.1 / Config.LinearAccelerationInterpolationSpeed
    let OutMotionData :=
      { OutMotionData with
        PositiveLinearAccelerationNormalized := max 0 LinearAccelerationNormalized }
    let OutMotionData :=
      { OutMotionData with
        NegativeLinearAccelerationNormalized := |min 0 LinearAccelerationNormalized| }
    let OutMotionData :=
      { OutMotionData with PositiveLinearJerkNormalized := max 0 LinearJerkNormalized }
    let OutMotionData :=
      { OutMotionData with NegativeLinearJerkNormalized := |min 0 LinearJerkNormalized| }
    (ServiceData, OutMotionData)

/-- The function `CalculateAngularMotionData`. Returns the new contents of `ServiceData` and
`OutMotionData`. -/
def CalculateAngularMotionData (E : FMath α) (CurrentRotation : FQuat α) (DeltaTime : α)
    (Config : FMotionIntensityConfig α) (ServiceData : FMotionIntensityServiceData α)
    (OutMotionData : FMotionIntensityMotionData α) :
    FMotionIntensityServiceData α × FMotionIntensityMotionData α :=
  if DeltaTime ≤ 0 then (ServiceData, OutMotionData)
  else
    let v := GetAngularVelocitySmoothed E CurrentRotation ServiceData.PreviousRotation DeltaTime
      Config.RotationInterpolationSpeed
    let ServiceData := { ServiceData with PreviousRotation := v.2 }
    let OutMotionData :=
      { OutMotionData with AngularVelocityNormalized := v.1 / Config.MaxAngularVelocity }
    let OutMotionData :=
      if Config.bClampAngularVelocity then
        { OutMotionData with
          AngularVelocityNormalized := min 1 OutMotionData.AngularVelocityNormalized }
      else OutMotionData
    let a := GetSmoothedDerivative E OutMotionData.AngularVelocityNormalized
      ServiceData.PreviousAngularVelocity DeltaTime Config.AngularVelocityInterpolationSpeed
    let ServiceData := { ServiceData with PreviousAngularVelocity := a.2 }
    let AngularAccelerationNormalized := a.1 / Config.AngularVelocityInterpolationSpeed
    let j := GetSmoothedDerivative E AngularAccelerationNormalized
      ServiceData.PreviousAngularAcceleration DeltaTime
      Config.AngularAccelerationInterpolationSpeed
    let ServiceData := { ServiceData with PreviousAngularAcceleration := j.2 }
    let AngularJerkNormalized := j.1 / Config.AngularAccelerationInterpolationSpeed
    let OutMotionData :=
      { OutMotionData with
        PositiveAngularAccelerationNormalized := max 0 AngularAccelerationNormalized }
    let OutMotionData :=
      { OutMotionData with
        NegativeAngularAccelerationNormalized := |min 0 AngularAccelerationNormalized| }
    let OutMotionData :=
      { OutMotionData with PositiveAngularJerkNormalized := max 0 AngularJerkNormalized }
    let OutMotionData :=
      { OutMotionData with NegativeAngularJerkNormalized := |min 0 AngularJerkNormalized| }
    (ServiceData, OutMotionData)

/-! ## Public methods (`MotionIntensity.cpp`) -/

/-- The function `CalculateMotionData`. Returns the motion-data record and the new content of
`ServiceData`. -/
def CalculateMotionData (E : FMath α) (Location : FVector α) (Rotation : FRotator α)
    (DeltaTime : α) (Config : FMotionIntensityConfig α)
    (ServiceData : FMotionIntensityServiceData α) :
    FMotionIntensityMotionData α × FMotionIntensityServiceData α :=
  if DeltaTime ≤ 0 then (FMotionIntensityMotionData.Default, ServiceData)
  else
    let RotationQuat := E.Quaternion Rotation
    if !Config.IsValid then (FMotionIntensityMotionData.Default, ServiceData)
    else
      let ServiceData :=
        if ServiceData.bSetPreviousTransformToCurrent then
          let s := { ServiceData with PreviousLocation := Location }
          let s := { s with PreviousRotation := RotationQuat }
          { s with bSetPreviousTransformToCurrent := false }
        else ServiceData
      let MotionData : FMotionIntensityMotionData α := FMotionIntensityMotionData.Default
      let r :=
        if Config.bCalculateLinearMotion then
          CalculateLinearMotionData E Location DeltaTime Config ServiceData MotionData
        else (ServiceData, MotionData)
      let r :=
        if Config.bCalculateAngularMotion then
          CalculateAngularMotionData E RotationQuat DeltaTime Config r.1 r.2
        else r
      (r.2, r.1)

/-- The function `GetLinearMotionIntensityFromMotionData`. -/
def GetLinearMotionIntensityFromMotionData (E : FMath α)
    (MotionData : FMotionIntensityMotionData α)
    (Coefficients : FMotionIntensityCoefficients α) : α :=
  if !Coefficients.IsValid then 0
  else
    let SumOfSquares :=
      Square (MotionData.LinearVelocityNormalized * Coefficients.LinearVelocityCoefficient)
      + Square (MotionData.PositiveLinearAccelerationNormalized
          * Coefficients.PositiveLinearAccelerationCoefficient)
      + Square (MotionData.NegativeLinearAccelerationNormalized
          * Coefficients.NegativeLinearAccelerationCoefficient)
      + Square (MotionData.PositiveLinearJerkNormalized
          * Coefficients.PositiveLinearJerkCoefficient)
      + Square (MotionData.NegativeLinearJerkNormalized
          * Coefficients.NegativeLinearJerkCoefficient)
    if SumOfSquares = 0 then 0
    else
      let LinearMotionIntensity := E.Sqrt SumOfSquares
      let MaxPossibleLinearMotionIntensity := E.Sqrt (
        Square Coefficients.LinearVelocityCoefficient
        + Square Coefficients.PositiveLinearAccelerationCoefficient
        + Square Coefficients.NegativeLinearAccelerationCoefficient
        + Square Coefficients.PositiveLinearJerkCoefficient
        + Square Coefficients.NegativeLinearJerkCoefficient)
      if MaxPossibleLinearMotionIntensity = 0 then 0
      else
        (LinearMotionIntensity / MaxPossibleLinearMotionIntensity)
          * Coefficients.MotionIntensityMultiplier

/-- The function `GetAngularMotionIntensityFromMotionData`. -/
def GetAngularMotionIntensityFromMotionData (E : FMath α)
    (MotionData : FMotionIntensityMotionData α)
    (Coefficients : FMotionIntensityCoefficients α) : α :=
  if !Coefficients.IsValid then 0
  else
    let SumOfSquares :=
      Square (MotionData.AngularVelocityNormalized * Coefficients.AngularVelocityCoefficient)
      + Square (MotionData.PositiveAngularAccelerationNormalized
          * Coefficients.PositiveAngularAccelerationCoefficient)
      + Square (MotionData.NegativeAngularAccelerationNormalized
          * Coefficients.NegativeAngularAccelerationCoefficient)
      + Square (MotionData.PositiveAngularJerkNormalized
          * Coefficients.PositiveAngularJerkCoefficient)
      + Square (MotionData.NegativeAngularJerkNormalized
          * Coefficients.NegativeAngularJerkCoefficient)
    if SumOfSquares = 0 then 0
    else
      let AngularMotionIntensity := E.Sqrt SumOfSquares
      let MaxPossibleAngularMotionIntensity := E.Sqrt (
        Square Coefficients.AngularVelocityCoefficient
        + Square Coefficients.PositiveAngularAccelerationCoefficient
        + Square Coefficients.NegativeAngularAccelerationCoefficient
        + Square Coefficients.PositiveAngularJerkCoefficient
        + Square Coefficients.NegativeAngularJerkCoefficient)
      if MaxPossibleAngularMotionIntensity = 0 then 0
      else
        (AngularMotionIntensity / MaxPossibleAngularMotionIntensity)
          * Coefficients.MotionIntensityMultiplier

/-- The function `GetMotionIntensityFromMotionData`. -/
def GetMotionIntensityFromMotionData (E : FMath α)
    (MotionData : FMotionIntensityMotionData α)
    (Coefficients : FMotionIntensityCoefficients α) : α :=
  if !Coefficients.IsValid then 0
  else
    let LinearMotionIntensity := GetLinearMotionIntensityFromMotionData E MotionData Coefficients
    let AngularMotionIntensity :=
      GetAngularMotionIntensityFromMotionData E MotionData Coefficients
    let MotionIntensity :=
      E.Sqrt (Square LinearMotionIntensity + Square AngularMotionIntensity) / E.UE_SQRT_2
    MotionIntensity

/-- The function `GetMotionIntensity`. Returns the score and the new content of `ServiceData`. -/
def GetMotionIntensity (E : FMath α) (Location : FVector α) (Rotation : FRotator α)
    (DeltaTime : α) (Config : FMotionIntensityConfig α)
    (ServiceData : FMotionIntensityServiceData α)
    (Coefficients : FMotionIntensityCoefficients α) : α × FMotionIntensityServiceData α :=
  let r := CalculateMotionData E Location Rotation DeltaTime Config ServiceData
  (GetMotionIntensityFromMotionData E r.1 Coefficients, r.2)

/-- The function `ResetServiceData`. -/
def ResetServiceData (ServiceData : FMotionIntensityServiceData α) :
    FMotionIntensityServiceData α :=
  ServiceData.Reset

/-! ## Idealised engine -/

/-- Exactness of `FMath::Sqrt`: on a non-negative argument it returns the non-negative root. -/
def FMath.SqrtExact (E : FMath α) : Prop :=
  ∀ x, 0 ≤ x → 0 ≤ E.Sqrt x ∧ E.Sqrt x * E.Sqrt x = x

/-- Exactness of the constant `UE_SQRT_2`: it is the engine square root of 2. -/
def FMath.Sqrt2Exact (E : FMath α) : Prop :=
  E.UE_SQRT_2 = E.Sqrt 2

/-- The engine function `FMath::Clamp`. -/
def Clamp (X Min Max : α) : α :=
  if X < Min then Min else if X < Max then X else Max

/-- The engine constant `UE_SMALL_NUMBER` (`1.e-8f`). -/
def UE_SMALL_NUMBER : α := 1 / 100000000

/-- The body of the engine function `FMath::FInterpTo` (`UnrealMathUtility.h`): the target when
`InterpSpeed <= 0`, the target when the squared distance to it is below `UE_SMALL_NUMBER`, and
otherwise a move from `Current` towards `Target` by the fraction
`Clamp (DeltaTime * InterpSpeed) 0 1` of the distance. -/
def FInterpToBody (Current Target DeltaTime InterpSpeed : α) : α :=
  if InterpSpeed ≤ 0 then Target
  else
    let Dist := Target - Current
    if Square Dist < UE_SMALL_NUMBER then Target
    else
      let DeltaMove := Dist * Clamp (DeltaTime * InterpSpeed) 0 1
      Current + DeltaMove

/-- An engine over a given root function and a given value of `PI`, used to evaluate the library
on concrete inputs. The scalar interpolation is the body of `FMath::FInterpTo`. The vector
interpolation moves from `Current` towards `Target` by the fraction
`Clamp (DeltaTime * InterpSpeed) 0 1` of the distance. No trigonometric function is
available in an ordered field, so the orientation primitives are those of an engine in which
every rotator denotes the identity orientation. -/
def idealEngine (sqrt : α → α) (pi : α) : FMath α :=
  { Sqrt := sqrt
    UE_SQRT_2 := sqrt 2
    PI := pi
    FInterpTo := FInterpToBody
    VInterpTo := fun Current Target DeltaTime InterpSpeed =>
      ⟨Current.X + (Target.X - Current.X) * Clamp (DeltaTime * InterpSpeed) 0 1,
       Current.Y + (Target.Y - Current.Y) * Clamp (DeltaTime * InterpSpeed) 0 1,
       Current.Z + (Target.Z - Current.Z) * Clamp (DeltaTime * InterpSpeed) 0 1⟩
    QInterpTo := fun _ Target _ _ => Target
    Quaternion := fun _ => FQuat.Identity
    AngularDistance := fun _ _ => 0 }

/-! ## Reference formulas of the aggregator -/

/-- The weighted sum of squares over the five linear channels, each channel multiplied by its
weight before squaring. -/
def LinearSumOfSquares (MotionData : FMotionIntensityMotionData α)
    (Coefficients : FMotionIntensityCoefficients α) : α :=
  (MotionData.LinearVelocityNormalized * Coefficients.LinearVelocityCoefficient) ^ 2
  + (MotionData.PositiveLinearAccelerationNormalized
      * Coefficients.PositiveLinearAccelerationCoefficient) ^ 2
  + (MotionData.NegativeLinearAccelerationNormalized
      * Coefficients.NegativeLinearAccelerationCoefficient) ^ 2
  + (MotionData.PositiveLinearJerkNormalized * Coefficients.PositiveLinearJerkCoefficient) ^ 2
  + (MotionData.NegativeLinearJerkNormalized * Coefficients.NegativeLinearJerkCoefficient) ^ 2

/-- The sum of the five squared linear weights. -/
def LinearWeightSquares (Coefficients : FMotionIntensityCoefficients α) : α :=
  Coefficients.LinearVelocityCoefficient ^ 2
  + Coefficients.PositiveLinearAccelerationCoefficient ^ 2
  + Coefficients.NegativeLinearAccelerationCoefficient ^ 2
  + Coefficients.PositiveLinearJerkCoefficient ^ 2
  + Coefficients.NegativeLinearJerkCoefficient ^ 2

/-- The weighted sum of squares over the five angular channels. -/
def AngularSumOfSquares (MotionData : FMotionIntensityMotionData α)
    (Coefficients : FMotionIntensityCoefficients α) : α :=
  (MotionData.AngularVelocityNormalized * Coefficients.AngularVelocityCoefficient) ^ 2
  + (MotionData.PositiveAngularAccelerationNormalized
      * Coefficients.PositiveAngularAccelerationCoefficient) ^ 2
  + (MotionData.NegativeAngularAccelerationNormalized
      * Coefficients.NegativeAngularAccelerationCoefficient) ^ 2
  + (MotionData.PositiveAngularJerkNormalized * Coefficients.PositiveAngularJerkCoefficient) ^ 2
  + (MotionData.NegativeAngularJerkNormalized * Coefficients.NegativeAngularJerkCoefficient) ^ 2

/-- The reference formula of the linear intensity: with `S` the weighted sum of squares and `W`
the sum of the squared weights, 0 when `S = 0` or `W = 0`, and otherwise
`sqrt S / sqrt W * MotionIntensityMultiplier`. -/
def LinearIntensityReference (E : FMath α) (MotionData : FMotionIntensityMotionData α)
    (Coefficients : FMotionIntensityCoefficients α) : α :=
  if LinearSumOfSquares MotionData Coefficients = 0 ∨ LinearWeightSquares Coefficients = 0 then 0
  else
    E.Sqrt (LinearSumOfSquares MotionData Coefficients) / E.Sqrt (LinearWeightSquares Coefficients)
      * Coefficients.MotionIntensityMultiplier

/-- The motion-data record with each linear channel exchanged with the corresponding angular
channel. -/
def FMotionIntensityMotionData.SwapAxes (m : FMotionIntensityMotionData α) :
    FMotionIntensityMotionData α :=
  { LinearVelocityNormalized := m.AngularVelocityNormalized
    PositiveLinearAccelerationNormalized := m.PositiveAngularAccelerationNormalized
    NegativeLinearAccelerationNormalized := m.NegativeAngularAccelerationNormalized
    PositiveLinearJerkNormalized := m.PositiveAngularJerkNormalized
    NegativeLinearJerkNormalized := m.NegativeAngularJerkNormalized
    AngularVelocityNormalized := m.LinearVelocityNormalized
    PositiveAngularAccelerationNormalized := m.PositiveLinearAccelerationNormalized
    NegativeAngularAccelerationNormalized := m.NegativeLinearAccelerationNormalized
    PositiveAngularJerkNormalized := m.PositiveLinearJerkNormalized
    NegativeAngularJerkNormalized := m.NegativeLinearJerkNormalized }

/-- The coefficient set with each linear weight exchanged with the corresponding angular weight
and the multiplier kept. -/
def FMotionIntensityCoefficients.SwapAxes (c : FMotionIntensityCoefficients α) :
    FMotionIntensityCoefficients α :=
  { MotionIntensityMultiplier := c.MotionIntensityMultiplier
    LinearVelocityCoefficient := c.AngularVelocityCoefficient
    PositiveLinearAccelerationCoefficient := c.PositiveAngularAccelerationCoefficient
    NegativeLinearAccelerationCoefficient := c.NegativeAngularAccelerationCoefficient
    PositiveLinearJerkCoefficient := c.PositiveAngularJerkCoefficient
    NegativeLinearJerkCoefficient := c.NegativeAngularJerkCoefficient
    AngularVelocityCoefficient := c.LinearVelocityCoefficient
    PositiveAngularAccelerationCoefficient := c.PositiveLinearAccelerationCoefficient
    NegativeAngularAccelerationCoefficient := c.NegativeLinearAccelerationCoefficient
    PositiveAngularJerkCoefficient := c.PositiveLinearJerkCoefficient
    NegativeAngularJerkCoefficient := c.NegativeLinearJerkCoefficient }

/-- The five linear channels of a motion-data record lie in the closed interval from 0 to 1. -/
def FMotionIntensityMotionData.LinearInUnit (m : FMotionIntensityMotionData α) : Prop :=
  (0 ≤ m.LinearVelocityNormalized ∧ m.LinearVelocityNormalized ≤ 1)
  ∧ (0 ≤ m.PositiveLinearAccelerationNormalized ∧ m.PositiveLinearAccelerationNormalized ≤ 1)
  ∧ (0 ≤ m.NegativeLinearAccelerationNormalized ∧ m.NegativeLinearAccelerationNormalized ≤ 1)
  ∧ (0 ≤ m.PositiveLinearJerkNormalized ∧ m.PositiveLinearJerkNormalized ≤ 1)
  ∧ (0 ≤ m.NegativeLinearJerkNormalized ∧ m.NegativeLinearJerkNormalized ≤ 1)

/-- The ten channels of a motion-data record lie in the closed interval from 0 to 1. -/
def FMotionIntensityMotionData.InUnit (m : FMotionIntensityMotionData α) : Prop :=
  m.LinearInUnit ∧ m.SwapAxes.LinearInUnit

/-! ## Local values of the two pipelines -/

/-- The value that `CalculateLinearMotionData` leaves in `OutMotionData.LinearVelocityNormalized`:
the smoothed speed over `MaxLinearVelocity`, passed through `FMath::Min(1.0f, ·)` when
`bClampLinearVelocity` is set. -/
def LinearVelocityNormalizedOf (E : FMath α) (CurrentLocation : FVector α) (DeltaTime : α)
    (Config : FMotionIntensityConfig α) (ServiceData : FMotionIntensityServiceData α) : α :=
  let v := (GetLinearVelocitySmoothed E CurrentLocation ServiceData.PreviousLocation DeltaTime
    Config.LocationInterpolationSpeed).1 / Config.MaxLinearVelocity
  if Config.bClampLinearVelocity then min 1 v else v

/-- The local constant `LinearAccelerationNormalized` of `CalculateLinearMotionData`. -/
def LinearAccelerationNormalized (E : FMath α) (CurrentLocation : FVector α) (DeltaTime : α)
    (Config : FMotionIntensityConfig α) (ServiceData : FMotionIntensityServiceData α) : α :=
  (GetSmoothedDerivative E
    (LinearVelocityNormalizedOf E CurrentLocation DeltaTime Config ServiceData)
    ServiceData.PreviousLinearVelocity DeltaTime Config.LinearVelocityInterpolationSpeed).1
    / Config.LinearVelocityInterpolationSpeed

/-- The local constant `LinearJerkNormalized` of `CalculateLinearMotionData`. -/
def LinearJerkNormalized (E : FMath α) (CurrentLocation : FVector α) (DeltaTime : α)
    (Config : FMotionIntensityConfig α) (ServiceData : FMotionIntensityServiceData α) : α :=
  (GetSmoothedDerivative E
    (LinearAccelerationNormalized E CurrentLocation DeltaTime Config ServiceData)
    ServiceData.PreviousLinearAcceleration DeltaTime
    Config.LinearAccelerationInterpolationSpeed).1
    / Config.LinearAccelerationInterpolationSpeed

/-- The value that `CalculateAngularMotionData` leaves in
`OutMotionData.AngularVelocityNormalized`: the smoothed angular speed over `MaxAngularVelocity`,
passed through `FMath::Min(1.0f, ·)` when `bClampAngularVelocity` is set. -/
def AngularVelocityNormalizedOf (E : FMath α) (CurrentRotation : FQuat α) (DeltaTime : α)
    (Config : FMotionIntensityConfig α) (ServiceData : FMotionIntensityServiceData α) : α :=
  let v := (GetAngularVelocitySmoothed E CurrentRotation ServiceData.PreviousRotation DeltaTime
    Config.RotationInterpolationSpeed).1 / Config.MaxAngularVelocity
  if Config.bClampAngularVelocity then min 1 v else v

/-- The local constant `AngularAccelerationNormalized` of `CalculateAngularMotionData`. -/
def AngularAccelerationNormalized (E : FMath α) (CurrentRotation : FQuat α) (DeltaTime : α)
    (Config : FMotionIntensityConfig α) (ServiceData : FMotionIntensityServiceData α) : α :=
  (GetSmoothedDerivative E
    (AngularVelocityNormalizedOf E CurrentRotation DeltaTime Config ServiceData)
    ServiceData.PreviousAngularVelocity DeltaTime Config.AngularVelocityInterpolationSpeed).1
    / Config.AngularVelocityInterpolationSpeed

/-- The local constant `AngularJerkNormalized` of `CalculateAngularMotionData`. -/
def AngularJerkNormalized (E : FMath α) (CurrentRotation : FQuat α) (DeltaTime : α)
    (Config : FMotionIntensityConfig α) (ServiceData : FMotionIntensityServiceData α) : α :=
  (GetSmoothedDerivative E
    (AngularAccelerationNormalized E CurrentRotation DeltaTime Config ServiceData)
    ServiceData.PreviousAngularAcceleration DeltaTime
    Config.AngularAccelerationInterpolationSpeed).1
    / Config.AngularAccelerationInterpolationSpeed

/-- The first-frame block of `CalculateMotionData`: when the reset-pending flag is set, the
stored transform is overwritten with the current sample and the flag is cleared. -/
def SnapPreviousTransform (Location : FVector α) (RotationQuat : FQuat α)
    (ServiceData : FMotionIntensityServiceData α) : FMotionIntensityServiceData α :=
  if ServiceData.bSetPreviousTransformToCurrent then
    let s := { ServiceData with PreviousLocation := Location }
    let s := { s with PreviousRotation := RotationQuat }
    { s with bSetPreviousTransformToCurrent := false }
  else ServiceData

/-! ## Statements about the pipelines -/

/-- Sign splitting of a signed value `x` into a positive channel `p` and a negative channel `n`:
`p = max(0, x)`, `n = |min(0, x)|`, both are non-negative, `p - n` gives `x` back, exactly one of
them is non-zero when `x` is non-zero, and both are 0 only when `x` is 0. -/
def SignSplit (x p n : α) : Prop :=
  p = max 0 x ∧ n = |min 0 x| ∧ 0 ≤ p ∧ 0 ≤ n ∧ p - n = x
    ∧ (x ≠ 0 → (p ≠ 0 ∧ n = 0) ∨ (p = 0 ∧ n ≠ 0))
    ∧ (p = 0 ∧ n = 0 ↔ x = 0)

/-- The engine scalar interpolation is `FMath::FInterpTo` as the engine defines it. -/
def FMath.FInterpToSpec (E : FMath α) : Prop :=
  ∀ Current Target DeltaTime InterpSpeed,
    E.FInterpTo Current Target DeltaTime InterpSpeed
      = FInterpToBody Current Target DeltaTime InterpSpeed

/-- The engine vector interpolation is the componentwise linear blend by the fraction
`Clamp (DeltaTime * InterpSpeed) 0 1`. -/
def FMath.VInterpBlend (E : FMath α) : Prop :=
  ∀ (Current Target : FVector α) (DeltaTime InterpSpeed : α),
    E.VInterpTo Current Target DeltaTime InterpSpeed
      = ⟨Current.X + (Target.X - Current.X) * Clamp (DeltaTime * InterpSpeed) 0 1,
         Current.Y + (Target.Y - Current.Y) * Clamp (DeltaTime * InterpSpeed) 0 1,
         Current.Z + (Target.Z - Current.Z) * Clamp (DeltaTime * InterpSpeed) 0 1⟩

/-- The position at step `n` of an object that starts at `Start` and moves along `Direction` at
`Speed` per time unit, sampled every `DeltaTime`. -/
def LinePosition (Start Direction : FVector α) (Speed DeltaTime : α) (n : ℕ) : FVector α :=
  ⟨Start.X + Speed * ((n : α) * DeltaTime) * Direction.X,
   Start.Y + Speed * ((n : α) * DeltaTime) * Direction.Y,
   Start.Z + Speed * ((n : α) * DeltaTime) * Direction.Z⟩

/-- The caller's frame loop: `CalculateMotionData` is fed `Location 0`, …, `Location n` in turn,
each call receiving the entity state left by the one before. Returns the record and the state of
the last call. -/
def FeedSamples (E : FMath α) (Location : ℕ → FVector α) (Rotation : FRotator α) (DeltaTime : α)
    (Config : FMotionIntensityConfig α) (ServiceData : FMotionIntensityServiceData α) :
    ℕ → FMotionIntensityMotionData α × FMotionIntensityServiceData α
  | 0 => CalculateMotionData E (Location 0) Rotation DeltaTime Config ServiceData
  | n + 1 =>
    CalculateMotionData E (Location (n + 1)) Rotation DeltaTime Config
      (FeedSamples E Location Rotation DeltaTime Config ServiceData n).2

/-! ## Rescaled coefficient sets -/

/-- The coefficient set with each of the five linear weights multiplied by `k`; the angular
weights and the multiplier are kept. -/
def FMotionIntensityCoefficients.ScaleLinearWeights (k : α)
    (c : FMotionIntensityCoefficients α) : FMotionIntensityCoefficients α :=
  { c with
    LinearVelocityCoefficient := k * c.LinearVelocityCoefficient
    PositiveLinearAccelerationCoefficient := k * c.PositiveLinearAccelerationCoefficient
    NegativeLinearAccelerationCoefficient := k * c.NegativeLinearAccelerationCoefficient
    PositiveLinearJerkCoefficient := k * c.PositiveLinearJerkCoefficient
    NegativeLinearJerkCoefficient := k * c.NegativeLinearJerkCoefficient }

/-- The coefficient set with each of the five angular weights multiplied by `k`; the linear
weights and the multiplier are kept. -/
def FMotionIntensityCoefficients.ScaleAngularWeights (k : α)
    (c : FMotionIntensityCoefficients α) : FMotionIntensityCoefficients α :=
  { c with
    AngularVelocityCoefficient := k * c.AngularVelocityCoefficient
    PositiveAngularAccelerationCoefficient := k * c.PositiveAngularAccelerationCoefficient
    NegativeAngularAccelerationCoefficient := k * c.NegativeAngularAccelerationCoefficient
    PositiveAngularJerkCoefficient := k * c.PositiveAngularJerkCoefficient
    NegativeAngularJerkCoefficient := k * c.NegativeAngularJerkCoefficient }

/-- The coefficient set with the multiplier multiplied by `t`; the ten weights are kept. -/
def FMotionIntensityCoefficients.ScaleMultiplier (t : α)
    (c : FMotionIntensityCoefficients α) : FMotionIntensityCoefficients α :=
  { c with MotionIntensityMultiplier := t * c.MotionIntensityMultiplier }

/-- Every one of the ten channels of a motion-data record is non-negative. -/
def FMotionIntensityMotionData.AllNonneg (m : FMotionIntensityMotionData α) : Prop :=
  0 ≤ m.LinearVelocityNormalized
  ∧ 0 ≤ m.PositiveLinearAccelerationNormalized
  ∧ 0 ≤ m.NegativeLinearAccelerationNormalized
  ∧ 0 ≤ m.PositiveLinearJerkNormalized
  ∧ 0 ≤ m.NegativeLinearJerkNormalized
  ∧ 0 ≤ m.AngularVelocityNormalized
  ∧ 0 ≤ m.PositiveAngularAccelerationNormalized
  ∧ 0 ≤ m.NegativeAngularAccelerationNormalized
  ∧ 0 ≤ m.PositiveAngularJerkNormalized
  ∧ 0 ≤ m.NegativeAngularJerkNormalized

/-! ## The aggregator in machine arithmetic -/

/-- The function `GetLinearMotionIntensityFromMotionData` in machine arithmetic: the same body,
with the result of every `float` multiplication, addition and division passed through `R`, the
rounding of the `float` format to a value it can represent. `FMath::Square(x)` is the rounded
`x * x`, the sums are taken from left to right, and `FMath::Sqrt` is the engine root. Every
rounded result is a finite value: overflow to infinity is left out. -/
def GetLinearMotionIntensityFromMotionDataRounded (E : FMath α) (R : α → α)
    (MotionData : FMotionIntensityMotionData α)
    (Coefficients : FMotionIntensityCoefficients α) : α :=
  if !Coefficients.IsValid then 0
  else
    let SquareR := fun x : α => R (x * x)
    let SumOfSquares :=
      R (R (R (R (
        SquareR (R (MotionData.LinearVelocityNormalized * Coefficients.LinearVelocityCoefficient))
        + SquareR (R (MotionData.PositiveLinearAccelerationNormalized
            * Coefficients.PositiveLinearAccelerationCoefficient)))
        + SquareR (R (MotionData.NegativeLinearAccelerationNormalized
            * Coefficients.NegativeLinearAccelerationCoefficient)))
        + SquareR (R (MotionData.PositiveLinearJerkNormalized
            * Coefficients.PositiveLinearJerkCoefficient)))
        + SquareR (R (MotionData.NegativeLinearJerkNormalized
            * Coefficients.NegativeLinearJerkCoefficient)))
    if SumOfSquares = 0 then 0
    else
      let LinearMotionIntensity := E.Sqrt SumOfSquares
      let MaxPossibleLinearMotionIntensity := E.Sqrt (
        R (R (R (R (
          SquareR Coefficients.LinearVelocityCoefficient
          + SquareR Coefficients.PositiveLinearAccelerationCoefficient)
          + SquareR Coefficients.NegativeLinearAccelerationCoefficient)
          + SquareR Coefficients.PositiveLinearJerkCoefficient)
          + SquareR Coefficients.NegativeLinearJerkCoefficient))
      if MaxPossibleLinearMotionIntensity = 0 then 0
      else
        R (R (LinearMotionIntensity / MaxPossibleLinearMotionIntensity)
          * Coefficients.MotionIntensityMultiplier)

/-- The function `GetAngularMotionIntensityFromMotionData` in machine arithmetic, in the same
way. -/
def GetAngularMotionIntensityFromMotionDataRounded (E : FMath α) (R : α → α)
    (MotionData : FMotionIntensityMotionData α)
    (Coefficients : FMotionIntensityCoefficients α) : α :=
  if !Coefficients.IsValid then 0
  else
    let SquareR := fun x : α => R (x * x)
    let SumOfSquares :=
      R (R (R (R (
        SquareR (R (MotionData.AngularVelocityNormalized
            * Coefficients.AngularVelocityCoefficient))
        + SquareR (R (MotionData.PositiveAngularAccelerationNormalized
            * Coefficients.PositiveAngularAccelerationCoefficient)))
        + SquareR (R (MotionData.NegativeAngularAccelerationNormalized
            * Coefficients.NegativeAngularAccelerationCoefficient)))
        + SquareR (R (MotionData.PositiveAngularJerkNormalized
            * Coefficients.PositiveAngularJerkCoefficient)))
        + SquareR (R (MotionData.NegativeAngularJerkNormalized
            * Coefficients.NegativeAngularJerkCoefficient)))
    if SumOfSquares = 0 then 0
    else
      let AngularMotionIntensity := E.Sqrt SumOfSquares
      let MaxPossibleAngularMotionIntensity := E.Sqrt (
        R (R (R (R (
          SquareR Coefficients.AngularVelocityCoefficient
          + SquareR Coefficients.PositiveAngularAccelerationCoefficient)
          + SquareR Coefficients.NegativeAngularAccelerationCoefficient)
          + SquareR Coefficients.PositiveAngularJerkCoefficient)
          + SquareR Coefficients.NegativeAngularJerkCoefficient))
      if MaxPossibleAngularMotionIntensity = 0 then 0
      else
        R (R (AngularMotionIntensity / MaxPossibleAngularMotionIntensity)
          * Coefficients.MotionIntensityMultiplier)

/-- The sum of the five squares of one weight `w` as the machine computes it: `w * w` rounded,
added five times from left to right, each sum rounded. -/
def RoundedSquaresOfWeight (R : α → α) (w : α) : α :=
  R (R (R (R (R (w * w) + R (w * w)) + R (w * w)) + R (w * w)) + R (w * w))

/-- The underflow of rounding to `float` (IEEE 754 binary32, round to nearest, ties to even): a
value of magnitude at most `2 ^ (-150)`, half the smallest positive `float` `2 ^ (-149)`, becomes
0. Every other value is returned as it is: the rounding of the significand is left out. -/
def RoundUnderflow (x : α) : α :=
  if |x| ≤ 1 / 2 ^ 150 then 0 else x

end Model

/-! ## Properties of an exact square root -/

section SqrtLemmas

variable [LinearOrderedField α]

theorem FMath.SqrtExact.nonneg {E : FMath α} (hE : E.SqrtExact) {x : α} (hx : 0 ≤ x) :
    0 ≤ E.Sqrt x :=
  (hE x hx).1

theorem FMath.SqrtExact.mul_self {E : FMath α} (hE : E.SqrtExact) {x : α} (hx : 0 ≤ x) :
    E.Sqrt x * E.Sqrt x = x :=
  (hE x hx).2

theorem FMath.SqrtExact.eq_zero_iff {E : FMath α} (hE : E.SqrtExact) {x : α} (hx : 0 ≤ x) :
    E.Sqrt x = 0 ↔ x = 0 := by
  constructor
  · intro h
    have := hE.mul_self hx
    rw [h] at this
    simpa using this.symm
  · intro h
    exact mul_self_eq_zero.mp ((hE.mul_self hx).trans h)

theorem FMath.SqrtExact.pos {E : FMath α} (hE : E.SqrtExact) {x : α} (hx : 0 < x) :
    0 < E.Sqrt x := by
  rcases (hE.nonneg hx.le).lt_or_eq with h | h
  · exact h
  · exact absurd ((hE.eq_zero_iff hx.le).mp h.symm) hx.ne'

theorem FMath.SqrtExact.le_of_le {E : FMath α} (hE : E.SqrtExact) {x y : α} (hx : 0 ≤ x)
    (hxy : x ≤ y) : E.Sqrt x ≤ E.Sqrt y := by
  by_contra hlt
  push_neg at hlt
  have hy : 0 ≤ y := hx.trans hxy
  have h1 := hE.mul_self hx
  have h2 := hE.mul_self hy
  have h3 : E.Sqrt y * E.Sqrt y < E.Sqrt x * E.Sqrt x :=
    mul_self_lt_mul_self (hE.nonneg hy) hlt
  rw [h1, h2] at h3
  exact absurd hxy (not_le.mpr h3)

theorem FMath.SqrtExact.eq_of_mul_self {E : FMath α} (hE : E.SqrtExact) {x r : α} (hr : 0 ≤ r)
    (h : r * r = x) : E.Sqrt x = r := by
  have hx : 0 ≤ x := h ▸ mul_self_nonneg r
  have h1 := hE.mul_self hx
  exact (mul_self_inj (hE.nonneg hx) hr).mp (h1.trans h.symm)

/-- The real square root is exact, whatever the other primitives are. -/
theorem idealEngine_real_sqrtExact (pi : ℝ) : (idealEngine Real.sqrt pi).SqrtExact := by
  intro x hx
  exact ⟨Real.sqrt_nonneg x, Real.mul_self_sqrt hx⟩

/-- The constant `UE_SQRT_2` of the idealised engine is exact. -/
theorem idealEngine_sqrt2Exact (sqrt : α → α) (pi : α) : (idealEngine sqrt pi).Sqrt2Exact :=
  rfl

end SqrtLemmas

/-! ## Update: guard clauses -/

section Guards

variable [LinearOrderedField α]

/-- Claim C1: for every location, rotation, configuration and entity state, and every elapsed
time `DeltaTime ≤ 0`, `CalculateMotionData` returns the record whose ten channels are all 0 and
leaves the entity state (the reset-pending flag included) exactly as it was. -/
theorem calculateMotionData_of_deltaTime_nonpos (E : FMath α) (Location : FVector α)
    (Rotation : FRotator α) (DeltaTime : α) (Config : FMotionIntensityConfig α)
    (ServiceData : FMotionIntensityServiceData α) (hdt : DeltaTime ≤ 0) :
    CalculateMotionData E Location Rotation DeltaTime Config ServiceData
      = (⟨0, 0, 0, 0, 0, 0, 0, 0, 0, 0⟩, ServiceData) := by
  simp only [CalculateMotionData, if_pos hdt, FMotionIntensityMotionData.Default]

/-- Instance of claim C1 at `DeltaTime = -1` on a freshly constructed state. -/
theorem calculateMotionData_of_deltaTime_nonpos_witness :
    (-1 : ℝ) ≤ 0 ∧
    CalculateMotionData (idealEngine Real.sqrt Real.pi) ⟨100, 200, 300⟩ ⟨0, 90, 0⟩ (-1)
        FMotionIntensityConfig.Default FMotionIntensityServiceData.Default
      = (⟨0, 0, 0, 0, 0, 0, 0, 0, 0, 0⟩, FMotionIntensityServiceData.Default) :=
  ⟨by norm_num, calculateMotionData_of_deltaTime_nonpos _ _ _ _ _ _ (by norm_num)⟩

/-- Claim C2: for every `DeltaTime > 0` and every configuration in which at least one of the
eight constants (both max velocities, six interpolation speeds) is `≤ 0`, `CalculateMotionData`
returns the all-zero record whatever the samples are and leaves the entity state, the
reset-pending flag included, unchanged. -/
theorem calculateMotionData_of_invalid_config (E : FMath α) (Location : FVector α)
    (Rotation : FRotator α) (DeltaTime : α) (Config : FMotionIntensityConfig α)
    (ServiceData : FMotionIntensityServiceData α) (hdt : 0 < DeltaTime)
    (hbad : Config.MaxLinearVelocity ≤ 0 ∨ Config.LocationInterpolationSpeed ≤ 0
      ∨ Config.LinearVelocityInterpolationSpeed ≤ 0
      ∨ Config.LinearAccelerationInterpolationSpeed ≤ 0
      ∨ Config.MaxAngularVelocity ≤ 0 ∨ Config.RotationInterpolationSpeed ≤ 0
      ∨ Config.AngularVelocityInterpolationSpeed ≤ 0
      ∨ Config.AngularAccelerationInterpolationSpeed ≤ 0) :
    CalculateMotionData E Location Rotation DeltaTime Config ServiceData
      = (⟨0, 0, 0, 0, 0, 0, 0, 0, 0, 0⟩, ServiceData) := by
  have hv : Config.IsValid = false := by
    simp only [FMotionIntensityConfig.IsValid, Bool.and_eq_false_iff, decide_eq_false_iff_not,
      gt_iff_lt, not_lt]
    tauto
  simp only [CalculateMotionData, if_neg (not_le.mpr hdt), hv, Bool.not_false, if_true,
    FMotionIntensityMotionData.Default]

/-- Instance of claim C2: `MaxLinearVelocity = 0`, a position far from the stored one, and a
state whose reset-pending flag is set. -/
theorem calculateMotionData_of_invalid_config_witness :
    (0 : ℝ) < 1 / 60 ∧
    CalculateMotionData (idealEngine Real.sqrt Real.pi) ⟨100, 200, 300⟩ ⟨0, 90, 0⟩ (1 / 60)
        { (FMotionIntensityConfig.Default : FMotionIntensityConfig ℝ) with
          MaxLinearVelocity := 0 }
        FMotionIntensityServiceData.Default
      = (⟨0, 0, 0, 0, 0, 0, 0, 0, 0, 0⟩, FMotionIntensityServiceData.Default) :=
  ⟨by norm_num,
   calculateMotionData_of_invalid_config _ _ _ _ _ _ (by norm_num)
     (Or.inl (by simp [FMotionIntensityConfig.Default]))⟩

end Guards

/-! ## Aggregator: auxiliary facts -/

section AggregatorLemmas

variable [LinearOrderedField α]

theorem isValid_swapAxes (c : FMotionIntensityCoefficients α) :
    c.SwapAxes.IsValid = c.IsValid := by
  rw [Bool.eq_iff_iff]
  simp only [FMotionIntensityCoefficients.IsValid, FMotionIntensityCoefficients.SwapAxes,
    Bool.and_eq_true, decide_eq_true_eq]
  tauto

theorem angular_eq_linear_swapAxes (E : FMath α) (md : FMotionIntensityMotionData α)
    (c : FMotionIntensityCoefficients α) :
    GetAngularMotionIntensityFromMotionData E md c
      = GetLinearMotionIntensityFromMotionData E md.SwapAxes c.SwapAxes := by
  unfold GetAngularMotionIntensityFromMotionData GetLinearMotionIntensityFromMotionData
  rw [isValid_swapAxes]
  rfl

theorem linear_of_valid (E : FMath α) (md : FMotionIntensityMotionData α)
    (c : FMotionIntensityCoefficients α) (hv : c.IsValid = true) :
    GetLinearMotionIntensityFromMotionData E md c
      = if LinearSumOfSquares md c = 0 then 0
        else if E.Sqrt (LinearWeightSquares c) = 0 then 0
        else E.Sqrt (LinearSumOfSquares md c) / E.Sqrt (LinearWeightSquares c)
          * c.MotionIntensityMultiplier := by
  simp only [GetLinearMotionIntensityFromMotionData, hv, Bool.not_true, Bool.false_eq_true,
    if_false, Square, LinearSumOfSquares, LinearWeightSquares, pow_two]

theorem linear_of_invalid (E : FMath α) (md : FMotionIntensityMotionData α)
    (c : FMotionIntensityCoefficients α) (hv : c.IsValid = false) :
    GetLinearMotionIntensityFromMotionData E md c = 0 := by
  simp only [GetLinearMotionIntensityFromMotionData, hv, Bool.not_false, if_true]

theorem combined_of_valid (E : FMath α) (md : FMotionIntensityMotionData α)
    (c : FMotionIntensityCoefficients α) (hv : c.IsValid = true) :
    GetMotionIntensityFromMotionData E md c
      = E.Sqrt (GetLinearMotionIntensityFromMotionData E md c ^ 2
          + GetAngularMotionIntensityFromMotionData E md c ^ 2) / E.UE_SQRT_2 := by
  simp only [GetMotionIntensityFromMotionData, hv, Bool.not_true, Bool.false_eq_true,
    if_false, Square, pow_two]

theorem combined_of_invalid (E : FMath α) (md : FMotionIntensityMotionData α)
    (c : FMotionIntensityCoefficients α) (hv : c.IsValid = false) :
    GetMotionIntensityFromMotionData E md c = 0 := by
  simp only [GetMotionIntensityFromMotionData, hv, Bool.not_false, if_true]

theorem angularSumOfSquares_eq (md : FMotionIntensityMotionData α)
    (c : FMotionIntensityCoefficients α) :
    AngularSumOfSquares md c = LinearSumOfSquares md.SwapAxes c.SwapAxes :=
  rfl

theorem linearSumOfSquares_nonneg (md : FMotionIntensityMotionData α)
    (c : FMotionIntensityCoefficients α) : 0 ≤ LinearSumOfSquares md c := by
  unfold LinearSumOfSquares
  positivity

theorem linearWeightSquares_nonneg (c : FMotionIntensityCoefficients α) :
    0 ≤ LinearWeightSquares c := by
  unfold LinearWeightSquares
  positivity

theorem linearSumOfSquares_of_weightSquares_eq_zero (md : FMotionIntensityMotionData α)
    (c : FMotionIntensityCoefficients α) (h : LinearWeightSquares c = 0) :
    LinearSumOfSquares md c = 0 := by
  unfold LinearWeightSquares at h
  have h1 := sq_nonneg c.LinearVelocityCoefficient
  have h2 := sq_nonneg c.PositiveLinearAccelerationCoefficient
  have h3 := sq_nonneg c.NegativeLinearAccelerationCoefficient
  have h4 := sq_nonneg c.PositiveLinearJerkCoefficient
  have h5 := sq_nonneg c.NegativeLinearJerkCoefficient
  have e1 : c.LinearVelocityCoefficient = 0 := pow_eq_zero_iff two_ne_zero |>.mp (by linarith)
  have e2 : c.PositiveLinearAccelerationCoefficient = 0 :=
    pow_eq_zero_iff two_ne_zero |>.mp (by linarith)
  have e3 : c.NegativeLinearAccelerationCoefficient = 0 :=
    pow_eq_zero_iff two_ne_zero |>.mp (by linarith)
  have e4 : c.PositiveLinearJerkCoefficient = 0 := pow_eq_zero_iff two_ne_zero |>.mp (by linarith)
  have e5 : c.NegativeLinearJerkCoefficient = 0 := pow_eq_zero_iff two_ne_zero |>.mp (by linarith)
  simp [LinearSumOfSquares, e1, e2, e3, e4, e5]

theorem linearWeightSquares_pos (md : FMotionIntensityMotionData α)
    (c : FMotionIntensityCoefficients α) (h : LinearSumOfSquares md c ≠ 0) :
    0 < LinearWeightSquares c := by
  rcases (linearWeightSquares_nonneg c).lt_or_eq with h0 | h0
  · exact h0
  · exact absurd (linearSumOfSquares_of_weightSquares_eq_zero md c h0.symm) h

/-- With valid weights and an exact root the linear intensity is the normalised ratio times the
multiplier, and 0 when the weighted sum of squares is 0. -/
theorem linear_eq_ratio (E : FMath α) (hE : E.SqrtExact) (md : FMotionIntensityMotionData α)
    (c : FMotionIntensityCoefficients α) (hv : c.IsValid = true) :
    GetLinearMotionIntensityFromMotionData E md c
      = if LinearSumOfSquares md c = 0 then 0
        else E.Sqrt (LinearSumOfSquares md c) / E.Sqrt (LinearWeightSquares c)
          * c.MotionIntensityMultiplier := by
  rw [linear_of_valid E md c hv]
  by_cases hS : LinearSumOfSquares md c = 0
  · simp only [if_pos hS]
  · simp only [if_neg hS]
    rw [if_neg (hE.pos (linearWeightSquares_pos md c hS)).ne']

theorem ratio_nonneg (E : FMath α) (hE : E.SqrtExact) (md : FMotionIntensityMotionData α)
    (c : FMotionIntensityCoefficients α) :
    0 ≤ E.Sqrt (LinearSumOfSquares md c) / E.Sqrt (LinearWeightSquares c) :=
  div_nonneg (hE.nonneg (linearSumOfSquares_nonneg md c))
    (hE.nonneg (linearWeightSquares_nonneg c))

theorem ratio_pos (E : FMath α) (hE : E.SqrtExact) (md : FMotionIntensityMotionData α)
    (c : FMotionIntensityCoefficients α) (hS : LinearSumOfSquares md c ≠ 0) :
    0 < E.Sqrt (LinearSumOfSquares md c) / E.Sqrt (LinearWeightSquares c) :=
  div_pos (hE.pos ((linearSumOfSquares_nonneg md c).lt_of_ne' hS))
    (hE.pos (linearWeightSquares_pos md c hS))

theorem weighted_sq_le (d w : α) (h0 : 0 ≤ d) (h1 : d ≤ 1) : (d * w) ^ 2 ≤ w ^ 2 := by
  have hd : d ^ 2 ≤ 1 := by nlinarith
  calc (d * w) ^ 2 = d ^ 2 * w ^ 2 := by ring
    _ ≤ 1 * w ^ 2 := mul_le_mul_of_nonneg_right hd (sq_nonneg w)
    _ = w ^ 2 := one_mul _

theorem linearSumOfSquares_le (md : FMotionIntensityMotionData α)
    (c : FMotionIntensityCoefficients α) (hd : md.LinearInUnit) :
    LinearSumOfSquares md c ≤ LinearWeightSquares c := by
  obtain ⟨⟨a0, a1⟩, ⟨b0, b1⟩, ⟨c0, c1⟩, ⟨d0, d1⟩, ⟨e0, e1⟩⟩ := hd
  unfold LinearSumOfSquares LinearWeightSquares
  have := weighted_sq_le _ c.LinearVelocityCoefficient a0 a1
  have := weighted_sq_le _ c.PositiveLinearAccelerationCoefficient b0 b1
  have := weighted_sq_le _ c.NegativeLinearAccelerationCoefficient c0 c1
  have := weighted_sq_le _ c.PositiveLinearJerkCoefficient d0 d1
  have := weighted_sq_le _ c.NegativeLinearJerkCoefficient e0 e1
  linarith

/-- With valid weights, an exact root, linear channels between 0 and 1 and a multiplier
`m ≥ 0`, the linear intensity lies between 0 and `m`. -/
theorem linear_mem_of_inUnit (E : FMath α) (hE : E.SqrtExact)
    (md : FMotionIntensityMotionData α) (c : FMotionIntensityCoefficients α)
    (hv : c.IsValid = true) (hm : 0 ≤ c.MotionIntensityMultiplier) (hd : md.LinearInUnit) :
    0 ≤ GetLinearMotionIntensityFromMotionData E md c
      ∧ GetLinearMotionIntensityFromMotionData E md c ≤ c.MotionIntensityMultiplier := by
  rw [linear_eq_ratio E hE md c hv]
  by_cases hS : LinearSumOfSquares md c = 0
  · simp only [if_pos hS]
    exact ⟨le_refl 0, hm⟩
  · simp only [if_neg hS]
    have hW := hE.pos (linearWeightSquares_pos md c hS)
    have hle : E.Sqrt (LinearSumOfSquares md c) / E.Sqrt (LinearWeightSquares c) ≤ 1 :=
      (div_le_one hW).mpr
        (hE.le_of_le (linearSumOfSquares_nonneg md c) (linearSumOfSquares_le md c hd))
    exact ⟨mul_nonneg (ratio_nonneg E hE md c) hm, mul_le_of_le_one_left hm hle⟩

theorem sqrt_two_pos (E : FMath α) (hE : E.SqrtExact) : 0 < E.Sqrt 2 :=
  hE.pos two_pos

/-- With an exact root and an exact `UE_SQRT_2` the combined intensity of two sub-intensities
between 0 and `m` lies between 0 and `m`. -/
theorem combine_mem (E : FMath α) (hE : E.SqrtExact) (l a m : α) (hl0 : 0 ≤ l) (hl : l ≤ m)
    (ha0 : 0 ≤ a) (ha : a ≤ m) :
    0 ≤ E.Sqrt (l ^ 2 + a ^ 2) / E.Sqrt 2 ∧ E.Sqrt (l ^ 2 + a ^ 2) / E.Sqrt 2 ≤ m := by
  have h2 := sqrt_two_pos E hE
  have hs : 0 ≤ l ^ 2 + a ^ 2 := by positivity
  have hm : 0 ≤ m := hl0.trans hl
  refine ⟨div_nonneg (hE.nonneg hs) h2.le, ?_⟩
  rw [div_le_iff₀ h2]
  have hle : l ^ 2 + a ^ 2 ≤ (m * E.Sqrt 2) * (m * E.Sqrt 2) := by
    have e : (m * E.Sqrt 2) * (m * E.Sqrt 2) = m ^ 2 * (E.Sqrt 2 * E.Sqrt 2) := by ring
    rw [e, hE.mul_self two_pos.le]
    nlinarith
  have := hE.le_of_le hs hle
  rwa [hE.eq_of_mul_self (mul_nonneg hm h2.le) rfl] at this

end AggregatorLemmas

/-! ## Aggregator: validity of the coefficients -/

section AggregatorValidity

variable [LinearOrderedField α]

/-- Claim C3, as stated, fails: with multiplier `-1`, linear-velocity weight 1 and a
linear-velocity channel of 1 the coefficient set passes `IsValid` and the linear intensity is
`sqrt 1 / sqrt 1 * (-1) = -1`, not 0. -/
theorem linear_intensity_negative_multiplier_counterexample :
    (⟨-1, 1, 0, 0, 0, 0, 0, 0, 0, 0, 0⟩ : FMotionIntensityCoefficients ℝ).MotionIntensityMultiplier
      < 0
    ∧ GetLinearMotionIntensityFromMotionData (idealEngine Real.sqrt Real.pi)
        ⟨1, 0, 0, 0, 0, 0, 0, 0, 0, 0⟩ ⟨-1, 1, 0, 0, 0, 0, 0, 0, 0, 0, 0⟩ = -1
    ∧ GetLinearMotionIntensityFromMotionData (idealEngine Real.sqrt Real.pi)
        ⟨1, 0, 0, 0, 0, 0, 0, 0, 0, 0⟩ ⟨-1, 1, 0, 0, 0, 0, 0, 0, 0, 0, 0⟩ ≠ 0 := by
  have h : GetLinearMotionIntensityFromMotionData (idealEngine Real.sqrt Real.pi)
      ⟨1, 0, 0, 0, 0, 0, 0, 0, 0, 0⟩ ⟨-1, 1, 0, 0, 0, 0, 0, 0, 0, 0, 0⟩ = (-1 : ℝ) := by
    simp [GetLinearMotionIntensityFromMotionData, FMotionIntensityCoefficients.IsValid, Square,
      idealEngine]
  refine ⟨by norm_num, h, ?_⟩
  rw [h]
  norm_num

/-- Claim C3, amended: the multiplier is not part of `IsValid`. For every motion-data record and
every coefficient set whose ten weights are non-negative and whose multiplier is negative, the
linear and the angular intensity are each `≤ 0` and are 0 exactly when the weighted sum of
squares of their axis is 0, and the combined intensity is `≥ 0` and is 0 exactly when both
are 0. -/
theorem intensity_of_negative_multiplier (E : FMath α) (hE : E.SqrtExact) (h2 : E.Sqrt2Exact)
    (md : FMotionIntensityMotionData α) (c : FMotionIntensityCoefficients α)
    (hv : c.IsValid = true) (hm : c.MotionIntensityMultiplier < 0) :
    (GetLinearMotionIntensityFromMotionData E md c ≤ 0
      ∧ (GetLinearMotionIntensityFromMotionData E md c = 0 ↔ LinearSumOfSquares md c = 0))
    ∧ (GetAngularMotionIntensityFromMotionData E md c ≤ 0
      ∧ (GetAngularMotionIntensityFromMotionData E md c = 0 ↔ AngularSumOfSquares md c = 0))
    ∧ (0 ≤ GetMotionIntensityFromMotionData E md c
      ∧ (GetMotionIntensityFromMotionData E md c = 0 ↔
          GetLinearMotionIntensityFromMotionData E md c = 0
          ∧ GetAngularMotionIntensityFromMotionData E md c = 0)) := by
  have key : ∀ (md : FMotionIntensityMotionData α) (c : FMotionIntensityCoefficients α),
      c.IsValid = true → c.MotionIntensityMultiplier < 0 →
      GetLinearMotionIntensityFromMotionData E md c ≤ 0
      ∧ (GetLinearMotionIntensityFromMotionData E md c = 0 ↔ LinearSumOfSquares md c = 0) := by
    intro md c hv hm
    rw [linear_eq_ratio E hE md c hv]
    by_cases hS : LinearSumOfSquares md c = 0
    · rw [if_pos hS]
      exact ⟨le_refl 0, fun _ => hS, fun _ => rfl⟩
    · simp only [if_neg hS, hS, iff_false]
      have hr := ratio_pos E hE md c hS
      exact ⟨(mul_neg_of_pos_of_neg hr hm).le, (mul_neg_of_pos_of_neg hr hm).ne⟩
  refine ⟨key md c hv hm, ?_, ?_⟩
  · rw [angular_eq_linear_swapAxes, angularSumOfSquares_eq]
    exact key md.SwapAxes c.SwapAxes ((isValid_swapAxes c).trans hv) hm
  · rw [combined_of_valid E md c hv, h2]
    have hs : 0 ≤ GetLinearMotionIntensityFromMotionData E md c ^ 2
        + GetAngularMotionIntensityFromMotionData E md c ^ 2 := by positivity
    have hp := sqrt_two_pos E hE
    refine ⟨div_nonneg (hE.nonneg hs) hp.le, ?_⟩
    rw [div_eq_zero_iff, hE.eq_zero_iff hs]
    constructor
    · rintro (h | h)
      · constructor <;> nlinarith [sq_nonneg (GetLinearMotionIntensityFromMotionData E md c),
          sq_nonneg (GetAngularMotionIntensityFromMotionData E md c)]
      · exact absurd h hp.ne'
    · rintro ⟨hl, ha⟩
      left
      rw [hl, ha]
      ring

/-- Instance of the amended claim C3 over the reals: multiplier `-1`, linear-velocity weight 1. -/
theorem intensity_of_negative_multiplier_witness :
    (GetLinearMotionIntensityFromMotionData (idealEngine Real.sqrt Real.pi)
        ⟨1, 0, 0, 0, 0, 0, 0, 0, 0, 0⟩ ⟨-1, 1, 0, 0, 0, 0, 0, 0, 0, 0, 0⟩ ≤ 0
      ∧ (GetLinearMotionIntensityFromMotionData (idealEngine Real.sqrt Real.pi)
          ⟨1, 0, 0, 0, 0, 0, 0, 0, 0, 0⟩ ⟨-1, 1, 0, 0, 0, 0, 0, 0, 0, 0, 0⟩ = 0
        ↔ LinearSumOfSquares (⟨1, 0, 0, 0, 0, 0, 0, 0, 0, 0⟩ : FMotionIntensityMotionData ℝ)
            ⟨-1, 1, 0, 0, 0, 0, 0, 0, 0, 0, 0⟩ = 0))
    ∧ (GetAngularMotionIntensityFromMotionData (idealEngine Real.sqrt Real.pi)
        ⟨1, 0, 0, 0, 0, 0, 0, 0, 0, 0⟩ ⟨-1, 1, 0, 0, 0, 0, 0, 0, 0, 0, 0⟩ ≤ 0
      ∧ (GetAngularMotionIntensityFromMotionData (idealEngine Real.sqrt Real.pi)
          ⟨1, 0, 0, 0, 0, 0, 0, 0, 0, 0⟩ ⟨-1, 1, 0, 0, 0, 0, 0, 0, 0, 0, 0⟩ = 0
        ↔ AngularSumOfSquares (⟨1, 0, 0, 0, 0, 0, 0, 0, 0, 0⟩ : FMotionIntensityMotionData ℝ)
            ⟨-1, 1, 0, 0, 0, 0, 0, 0, 0, 0, 0⟩ = 0))
    ∧ (0 ≤ GetMotionIntensityFromMotionData (idealEngine Real.sqrt Real.pi)
        ⟨1, 0, 0, 0, 0, 0, 0, 0, 0, 0⟩ ⟨-1, 1, 0, 0, 0, 0, 0, 0, 0, 0, 0⟩
      ∧ (GetMotionIntensityFromMotionData (idealEngine Real.sqrt Real.pi)
          ⟨1, 0, 0, 0, 0, 0, 0, 0, 0, 0⟩ ⟨-1, 1, 0, 0, 0, 0, 0, 0, 0, 0, 0⟩ = 0
        ↔ GetLinearMotionIntensityFromMotionData (idealEngine Real.sqrt Real.pi)
            ⟨1, 0, 0, 0, 0, 0, 0, 0, 0, 0⟩ ⟨-1, 1, 0, 0, 0, 0, 0, 0, 0, 0, 0⟩ = 0
          ∧ GetAngularMotionIntensityFromMotionData (idealEngine Real.sqrt Real.pi)
            ⟨1, 0, 0, 0, 0, 0, 0, 0, 0, 0⟩ ⟨-1, 1, 0, 0, 0, 0, 0, 0, 0, 0, 0⟩ = 0)) :=
  intensity_of_negative_multiplier (idealEngine Real.sqrt Real.pi)
    (idealEngine_real_sqrtExact Real.pi) (idealEngine_sqrt2Exact Real.sqrt Real.pi)
    ⟨1, 0, 0, 0, 0, 0, 0, 0, 0, 0⟩ ⟨-1, 1, 0, 0, 0, 0, 0, 0, 0, 0, 0⟩
    (by simp [FMotionIntensityCoefficients.IsValid]) (by norm_num)

/-- Claim C4: for every coefficient set in which at least one of the ten channel weights is
negative, whatever the other weights and the multiplier are, the linear, the angular and the
combined intensity are each 0 for every motion-data record. -/
theorem intensity_of_negative_weight (E : FMath α) (md : FMotionIntensityMotionData α)
    (c : FMotionIntensityCoefficients α)
    (hneg : c.LinearVelocityCoefficient < 0 ∨ c.PositiveLinearAccelerationCoefficient < 0
      ∨ c.NegativeLinearAccelerationCoefficient < 0 ∨ c.PositiveLinearJerkCoefficient < 0
      ∨ c.NegativeLinearJerkCoefficient < 0 ∨ c.AngularVelocityCoefficient < 0
      ∨ c.PositiveAngularAccelerationCoefficient < 0
      ∨ c.NegativeAngularAccelerationCoefficient < 0 ∨ c.PositiveAngularJerkCoefficient < 0
      ∨ c.NegativeAngularJerkCoefficient < 0) :
    GetLinearMotionIntensityFromMotionData E md c = 0
    ∧ GetAngularMotionIntensityFromMotionData E md c = 0
    ∧ GetMotionIntensityFromMotionData E md c = 0 := by
  have hv : c.IsValid = false := by
    simp only [FMotionIntensityCoefficients.IsValid, Bool.and_eq_false_iff,
      decide_eq_false_iff_not, ge_iff_le, not_le]
    tauto
  refine ⟨linear_of_invalid E md c hv, ?_, combined_of_invalid E md c hv⟩
  rw [angular_eq_linear_swapAxes]
  exact linear_of_invalid E _ _ ((isValid_swapAxes c).trans hv)

/-- Instance of claim C4: only the positive-angular-jerk weight is negative. -/
theorem intensity_of_negative_weight_witness :
    (⟨1, 1, 1, 1, 1, 1, 1, 1, 1, -1, 1⟩ :
      FMotionIntensityCoefficients ℝ).PositiveAngularJerkCoefficient < 0
    ∧ GetLinearMotionIntensityFromMotionData (idealEngine Real.sqrt Real.pi)
        ⟨1, 1, 1, 1, 1, 1, 1, 1, 1, 1⟩ ⟨1, 1, 1, 1, 1, 1, 1, 1, 1, -1, 1⟩ = 0
    ∧ GetAngularMotionIntensityFromMotionData (idealEngine Real.sqrt Real.pi)
        ⟨1, 1, 1, 1, 1, 1, 1, 1, 1, 1⟩ ⟨1, 1, 1, 1, 1, 1, 1, 1, 1, -1, 1⟩ = 0
    ∧ GetMotionIntensityFromMotionData (idealEngine Real.sqrt Real.pi)
        ⟨1, 1, 1, 1, 1, 1, 1, 1, 1, 1⟩ ⟨1, 1, 1, 1, 1, 1, 1, 1, 1, -1, 1⟩ = 0 :=
  ⟨by norm_num,
   intensity_of_negative_weight _ _ _
     (Or.inr (Or.inr (Or.inr (Or.inr (Or.inr (Or.inr (Or.inr (Or.inr (Or.inl
       (by norm_num))))))))))⟩

end AggregatorValidity

/-! ## Aggregator: formulas and bounds -/

section AggregatorFormulas

variable [LinearOrderedField α]

/-- Claim C5, as stated, fails: with multiplier 1, linear-velocity weight 1 (all weights
non-negative) and an unclamped linear-velocity channel of 2, the linear intensity is
`sqrt 4 / sqrt 1 * 1 = 2`, the angular intensity is 0 and the combined intensity is
`sqrt (2 * 2 + 0 * 0) / sqrt 2`, which exceeds 1. -/
theorem combined_intensity_exceeds_one_counterexample :
    (⟨1, 1, 0, 0, 0, 0, 0, 0, 0, 0, 0⟩ : FMotionIntensityCoefficients ℝ).IsValid = true
    ∧ (⟨1, 1, 0, 0, 0, 0, 0, 0, 0, 0, 0⟩ :
        FMotionIntensityCoefficients ℝ).MotionIntensityMultiplier = 1
    ∧ GetMotionIntensityFromMotionData (idealEngine Real.sqrt Real.pi)
        ⟨2, 0, 0, 0, 0, 0, 0, 0, 0, 0⟩ ⟨1, 1, 0, 0, 0, 0, 0, 0, 0, 0, 0⟩ = Real.sqrt 4 / Real.sqrt 2
    ∧ ¬ (GetMotionIntensityFromMotionData (idealEngine Real.sqrt Real.pi)
        ⟨2, 0, 0, 0, 0, 0, 0, 0, 0, 0⟩ ⟨1, 1, 0, 0, 0, 0, 0, 0, 0, 0, 0⟩ ≤ 1) := by
  have h4 : Real.sqrt (2 * 2) = 2 := Real.sqrt_mul_self (by norm_num)
  have h44 : Real.sqrt 4 = 2 := by
    rw [show (4 : ℝ) = 2 * 2 by norm_num]
    exact h4
  have h : GetMotionIntensityFromMotionData (idealEngine Real.sqrt Real.pi)
      ⟨2, 0, 0, 0, 0, 0, 0, 0, 0, 0⟩ ⟨1, 1, 0, 0, 0, 0, 0, 0, 0, 0, 0⟩
        = Real.sqrt 4 / Real.sqrt 2 := by
    simp [GetMotionIntensityFromMotionData, GetLinearMotionIntensityFromMotionData,
      GetAngularMotionIntensityFromMotionData, FMotionIntensityCoefficients.IsValid, Square,
      idealEngine, h4, h44]
  refine ⟨by simp [FMotionIntensityCoefficients.IsValid], rfl, h, ?_⟩
  rw [h, not_le, lt_div_iff₀ (Real.sqrt_pos.mpr (by norm_num)), one_mul]
  exact Real.sqrt_lt_sqrt (by norm_num) (by norm_num)

/-- Claim C5, amended: for every motion-data record whose ten channels lie between 0 and 1 and
every coefficient set whose ten weights are non-negative and whose multiplier is 1, the combined
intensity lies between 0 and 1. -/
theorem combined_intensity_mem_unit (E : FMath α) (hE : E.SqrtExact) (h2 : E.Sqrt2Exact)
    (md : FMotionIntensityMotionData α) (c : FMotionIntensityCoefficients α)
    (hv : c.IsValid = true) (hm : c.MotionIntensityMultiplier = 1) (hd : md.InUnit) :
    0 ≤ GetMotionIntensityFromMotionData E md c
      ∧ GetMotionIntensityFromMotionData E md c ≤ 1 := by
  have hl := linear_mem_of_inUnit E hE md c hv (by rw [hm]; exact zero_le_one) hd.1
  have ha := linear_mem_of_inUnit E hE md.SwapAxes c.SwapAxes ((isValid_swapAxes c).trans hv)
    (by show 0 ≤ c.MotionIntensityMultiplier; rw [hm]; exact zero_le_one) hd.2
  rw [← angular_eq_linear_swapAxes] at ha
  have hm2 : c.SwapAxes.MotionIntensityMultiplier = 1 := hm
  rw [hm] at hl
  rw [hm2] at ha
  rw [combined_of_valid E md c hv, h2]
  exact combine_mem E hE _ _ 1 hl.1 hl.2 ha.1 ha.2

/-- Instance of the amended claim C5 over the reals: every channel `1 / 2`, the default
coefficient set. -/
theorem combined_intensity_mem_unit_witness :
    0 ≤ GetMotionIntensityFromMotionData (idealEngine Real.sqrt Real.pi)
        ⟨1 / 2, 1 / 2, 1 / 2, 1 / 2, 1 / 2, 1 / 2, 1 / 2, 1 / 2, 1 / 2, 1 / 2⟩
        FMotionIntensityCoefficients.Default
    ∧ GetMotionIntensityFromMotionData (idealEngine Real.sqrt Real.pi)
        ⟨1 / 2, 1 / 2, 1 / 2, 1 / 2, 1 / 2, 1 / 2, 1 / 2, 1 / 2, 1 / 2, 1 / 2⟩
        FMotionIntensityCoefficients.Default ≤ 1 :=
  combined_intensity_mem_unit (idealEngine Real.sqrt Real.pi)
    (idealEngine_real_sqrtExact Real.pi) (idealEngine_sqrt2Exact Real.sqrt Real.pi) _ _
    (by simp [FMotionIntensityCoefficients.IsValid, FMotionIntensityCoefficients.Default])
    rfl
    (by
      simp only [FMotionIntensityMotionData.InUnit, FMotionIntensityMotionData.LinearInUnit,
        FMotionIntensityMotionData.SwapAxes]
      norm_num)

/-- Claim C6: for every coefficient set with all ten weights non-negative,
`GetLinearMotionIntensityFromMotionData` equals the reference formula: with `S` the sum over the
five linear channels of `(channel * weight) ^ 2` and `W` the sum of the five squared linear
weights, 0 when `S = 0` or `W = 0`, and otherwise `sqrt S / sqrt W * MotionIntensityMultiplier`. -/
theorem linear_intensity_eq_reference (E : FMath α) (hE : E.SqrtExact)
    (md : FMotionIntensityMotionData α) (c : FMotionIntensityCoefficients α)
    (hv : c.IsValid = true) :
    GetLinearMotionIntensityFromMotionData E md c = LinearIntensityReference E md c := by
  rw [linear_eq_ratio E hE md c hv]
  unfold LinearIntensityReference
  by_cases hS : LinearSumOfSquares md c = 0
  · rw [if_pos hS, if_pos (Or.inl hS)]
  · rw [if_neg hS, if_neg]
    rintro (h | h)
    · exact hS h
    · exact (linearWeightSquares_pos md c hS).ne' h

/-- Instance of claim C6 over the reals: channels `3 / 5` and `4 / 5` on two unit weights. -/
theorem linear_intensity_eq_reference_witness :
    (⟨2, 1, 1, 0, 0, 0, 0, 0, 0, 0, 0⟩ : FMotionIntensityCoefficients ℝ).IsValid = true
    ∧ GetLinearMotionIntensityFromMotionData (idealEngine Real.sqrt Real.pi)
        ⟨3 / 5, 4 / 5, 0, 0, 0, 0, 0, 0, 0, 0⟩ ⟨2, 1, 1, 0, 0, 0, 0, 0, 0, 0, 0⟩
      = LinearIntensityReference (idealEngine Real.sqrt Real.pi)
        ⟨3 / 5, 4 / 5, 0, 0, 0, 0, 0, 0, 0, 0⟩ ⟨2, 1, 1, 0, 0, 0, 0, 0, 0, 0, 0⟩ :=
  ⟨by simp [FMotionIntensityCoefficients.IsValid],
   linear_intensity_eq_reference _ (idealEngine_real_sqrtExact Real.pi) _ _
     (by simp [FMotionIntensityCoefficients.IsValid])⟩

/-- Claim C7: the angular intensity is the same formula as the linear intensity. For every
motion-data record `md` and coefficient set `c`, the angular intensity of `md` and `c` equals the
linear intensity of `md` and `c` with each linear field exchanged with the corresponding angular
field and the multiplier kept. -/
theorem angular_intensity_eq_linear_of_swapped (E : FMath α)
    (md : FMotionIntensityMotionData α) (c : FMotionIntensityCoefficients α) :
    GetAngularMotionIntensityFromMotionData E md c
      = GetLinearMotionIntensityFromMotionData E md.SwapAxes c.SwapAxes :=
  angular_eq_linear_swapAxes E md c

/-- Claim C8: for every motion-data record and every coefficient set with all ten weights
non-negative, `GetMotionIntensityFromMotionData` equals `sqrt (L ^ 2 + A ^ 2) / sqrt 2` where
`L` and `A` are the linear and the angular intensity of the same inputs; the multiplier is not
applied a second time. -/
theorem combined_intensity_eq (E : FMath α) (h2 : E.Sqrt2Exact)
    (md : FMotionIntensityMotionData α) (c : FMotionIntensityCoefficients α)
    (hv : c.IsValid = true) :
    GetMotionIntensityFromMotionData E md c
      = E.Sqrt (GetLinearMotionIntensityFromMotionData E md c ^ 2
          + GetAngularMotionIntensityFromMotionData E md c ^ 2) / E.Sqrt 2 := by
  rw [combined_of_valid E md c hv, h2]

/-- Instance of claim C8 over the reals: multiplier 3 on the default weights. -/
theorem combined_intensity_eq_witness :
    GetMotionIntensityFromMotionData (idealEngine Real.sqrt Real.pi)
        ⟨1, 1 / 2, 0, 1 / 4, 0, 1, 0, 1 / 3, 0, 1 / 5⟩ ⟨3, 0, 1, 1, 1, 1, 0, 1, 1, 1, 1⟩
      = Real.sqrt (GetLinearMotionIntensityFromMotionData (idealEngine Real.sqrt Real.pi)
            ⟨1, 1 / 2, 0, 1 / 4, 0, 1, 0, 1 / 3, 0, 1 / 5⟩ ⟨3, 0, 1, 1, 1, 1, 0, 1, 1, 1, 1⟩ ^ 2
          + GetAngularMotionIntensityFromMotionData (idealEngine Real.sqrt Real.pi)
            ⟨1, 1 / 2, 0, 1 / 4, 0, 1, 0, 1 / 3, 0, 1 / 5⟩ ⟨3, 0, 1, 1, 1, 1, 0, 1, 1, 1, 1⟩ ^ 2)
        / Real.sqrt 2 :=
  combined_intensity_eq (idealEngine Real.sqrt Real.pi)
    (idealEngine_sqrt2Exact Real.sqrt Real.pi) _ _
    (by simp [FMotionIntensityCoefficients.IsValid])

/-- Claim C9: for every motion-data record and every coefficient set whose five linear weights
are all 0, whatever the angular weights and the multiplier are, the linear intensity is exactly
0; likewise the angular intensity is exactly 0 when the five angular weights are all 0. -/
theorem intensity_of_zero_weights (E : FMath α) (md : FMotionIntensityMotionData α)
    (c : FMotionIntensityCoefficients α) :
    (c.LinearVelocityCoefficient = 0 ∧ c.PositiveLinearAccelerationCoefficient = 0
        ∧ c.NegativeLinearAccelerationCoefficient = 0 ∧ c.PositiveLinearJerkCoefficient = 0
        ∧ c.NegativeLinearJerkCoefficient = 0 →
      GetLinearMotionIntensityFromMotionData E md c = 0)
    ∧ (c.AngularVelocityCoefficient = 0 ∧ c.PositiveAngularAccelerationCoefficient = 0
        ∧ c.NegativeAngularAccelerationCoefficient = 0 ∧ c.PositiveAngularJerkCoefficient = 0
        ∧ c.NegativeAngularJerkCoefficient = 0 →
      GetAngularMotionIntensityFromMotionData E md c = 0) := by
  constructor
  · rintro ⟨h1, h2, h3, h4, h5⟩
    simp [GetLinearMotionIntensityFromMotionData, Square, h1, h2, h3, h4, h5]
  · rintro ⟨h1, h2, h3, h4, h5⟩
    simp [GetAngularMotionIntensityFromMotionData, Square, h1, h2, h3, h4, h5]

/-- Instance of claim C9 over the reals: one coefficient set with zero linear weights and one
with zero angular weights, on a record whose channels are all 7. -/
theorem intensity_of_zero_weights_witness :
    GetLinearMotionIntensityFromMotionData (idealEngine Real.sqrt Real.pi)
        ⟨7, 7, 7, 7, 7, 7, 7, 7, 7, 7⟩ ⟨5, 0, 0, 0, 0, 0, 1, 2, 3, 4, 5⟩ = 0
    ∧ GetAngularMotionIntensityFromMotionData (idealEngine Real.sqrt Real.pi)
        ⟨7, 7, 7, 7, 7, 7, 7, 7, 7, 7⟩ ⟨5, 1, 2, 3, 4, 5, 0, 0, 0, 0, 0⟩ = 0 :=
  ⟨(intensity_of_zero_weights _ _ _).1 ⟨rfl, rfl, rfl, rfl, rfl⟩,
   (intensity_of_zero_weights _ _ _).2 ⟨rfl, rfl, rfl, rfl, rfl⟩⟩

theorem angularRounded_eq_linearRounded_swapAxes (E : FMath α) (R : α → α)
    (md : FMotionIntensityMotionData α) (c : FMotionIntensityCoefficients α) :
    GetAngularMotionIntensityFromMotionDataRounded E R md c
      = GetLinearMotionIntensityFromMotionDataRounded E R md.SwapAxes c.SwapAxes := by
  unfold GetAngularMotionIntensityFromMotionDataRounded
    GetLinearMotionIntensityFromMotionDataRounded
  rw [isValid_swapAxes]
  rfl

/-- Without rounding the machine-arithmetic body is the exact one. -/
theorem linearRounded_id (E : FMath α) (md : FMotionIntensityMotionData α)
    (c : FMotionIntensityCoefficients α) :
    GetLinearMotionIntensityFromMotionDataRounded E id md c
      = GetLinearMotionIntensityFromMotionData E md c := by
  simp only [GetLinearMotionIntensityFromMotionDataRounded,
    GetLinearMotionIntensityFromMotionData, Square, id]

/-- The machine-arithmetic linear intensity when the five linear channels are 1 and the five
linear weights are one representable `w`: both sums of squares are the same rounded value. -/
theorem linearRounded_of_equal_weights (E : FMath α) (R : α → α)
    (md : FMotionIntensityMotionData α) (c : FMotionIntensityCoefficients α)
    (hv : c.IsValid = true) (w : α) (hRw : R w = w)
    (hc : c.LinearVelocityCoefficient = w ∧ c.PositiveLinearAccelerationCoefficient = w
      ∧ c.NegativeLinearAccelerationCoefficient = w ∧ c.PositiveLinearJerkCoefficient = w
      ∧ c.NegativeLinearJerkCoefficient = w)
    (hd : md.LinearVelocityNormalized = 1 ∧ md.PositiveLinearAccelerationNormalized = 1
      ∧ md.NegativeLinearAccelerationNormalized = 1 ∧ md.PositiveLinearJerkNormalized = 1
      ∧ md.NegativeLinearJerkNormalized = 1) :
    GetLinearMotionIntensityFromMotionDataRounded E R md c
      = if RoundedSquaresOfWeight R w = 0 then 0
        else if E.Sqrt (RoundedSquaresOfWeight R w) = 0 then 0
        else R (R (E.Sqrt (RoundedSquaresOfWeight R w) / E.Sqrt (RoundedSquaresOfWeight R w))
          * c.MotionIntensityMultiplier) := by
  obtain ⟨c1, c2, c3, c4, c5⟩ := hc
  obtain ⟨d1, d2, d3, d4, d5⟩ := hd
  simp only [GetLinearMotionIntensityFromMotionDataRounded, hv, Bool.not_true,
    Bool.false_eq_true, if_false, c1, c2, c3, c4, c5, d1, d2, d3, d4, d5, one_mul, hRw,
    RoundedSquaresOfWeight]

theorem linearRounded_saturation (E : FMath α) (R : α → α)
    (md : FMotionIntensityMotionData α) (c : FMotionIntensityCoefficients α)
    (hv : c.IsValid = true) (w : α) (hR1 : R 1 = 1) (hRw : R w = w)
    (hRm : R c.MotionIntensityMultiplier = c.MotionIntensityMultiplier)
    (hc : c.LinearVelocityCoefficient = w ∧ c.PositiveLinearAccelerationCoefficient = w
      ∧ c.NegativeLinearAccelerationCoefficient = w ∧ c.PositiveLinearJerkCoefficient = w
      ∧ c.NegativeLinearJerkCoefficient = w)
    (hd : md.LinearVelocityNormalized = 1 ∧ md.PositiveLinearAccelerationNormalized = 1
      ∧ md.NegativeLinearAccelerationNormalized = 1 ∧ md.PositiveLinearJerkNormalized = 1
      ∧ md.NegativeLinearJerkNormalized = 1) :
    (RoundedSquaresOfWeight R w ≠ 0 → E.Sqrt (RoundedSquaresOfWeight R w) ≠ 0 →
      GetLinearMotionIntensityFromMotionDataRounded E R md c = c.MotionIntensityMultiplier)
    ∧ (RoundedSquaresOfWeight R w = 0 →
      GetLinearMotionIntensityFromMotionDataRounded E R md c = 0) := by
  rw [linearRounded_of_equal_weights E R md c hv w hRw hc hd]
  constructor
  · intro hS hr
    rw [if_neg hS, if_neg hr, div_self hr, hR1, one_mul, hRm]
  · intro hS
    rw [if_pos hS]

theorem roundUnderflow_of_lt (x : α) (h : 1 / 2 ^ 150 < |x|) : RoundUnderflow x = x := by
  unfold RoundUnderflow
  rw [if_neg (not_le.mpr h)]

/-- Claim C10, as stated, fails in `float` arithmetic: with all five linear weights `2 ^ (-80)`
(valid and positive), all five linear channels 1 and multiplier 1, every product `1 * w` is `w`,
every `FMath::Square` gives `2 ^ (-160)`, which underflows to 0, so `SumOfSquares` is 0 and the
function returns 0, not the multiplier. -/
theorem intensity_saturation_underflow_counterexample :
    (⟨1, 1 / 2 ^ 80, 1 / 2 ^ 80, 1 / 2 ^ 80, 1 / 2 ^ 80, 1 / 2 ^ 80, 0, 0, 0, 0, 0⟩ :
      FMotionIntensityCoefficients ℝ).IsValid = true
    ∧ (0 : ℝ) < 1 / 2 ^ 80
    ∧ RoundUnderflow ((1 : ℝ) / 2 ^ 80) = 1 / 2 ^ 80
    ∧ GetLinearMotionIntensityFromMotionDataRounded (idealEngine Real.sqrt Real.pi)
        RoundUnderflow ⟨1, 1, 1, 1, 1, 0, 0, 0, 0, 0⟩
        ⟨1, 1 / 2 ^ 80, 1 / 2 ^ 80, 1 / 2 ^ 80, 1 / 2 ^ 80, 1 / 2 ^ 80, 0, 0, 0, 0, 0⟩ = 0
    ∧ GetLinearMotionIntensityFromMotionDataRounded (idealEngine Real.sqrt Real.pi)
        RoundUnderflow ⟨1, 1, 1, 1, 1, 0, 0, 0, 0, 0⟩
        ⟨1, 1 / 2 ^ 80, 1 / 2 ^ 80, 1 / 2 ^ 80, 1 / 2 ^ 80, 1 / 2 ^ 80, 0, 0, 0, 0, 0⟩
      ≠ (⟨1, 1 / 2 ^ 80, 1 / 2 ^ 80, 1 / 2 ^ 80, 1 / 2 ^ 80, 1 / 2 ^ 80, 0, 0, 0, 0, 0⟩ :
          FMotionIntensityCoefficients ℝ).MotionIntensityMultiplier := by
  have hv : (⟨1, 1 / 2 ^ 80, 1 / 2 ^ 80, 1 / 2 ^ 80, 1 / 2 ^ 80, 1 / 2 ^ 80, 0, 0, 0, 0, 0⟩ :
      FMotionIntensityCoefficients ℝ).IsValid = true := by
    simp [FMotionIntensityCoefficients.IsValid]
  have hw : RoundUnderflow ((1 : ℝ) / 2 ^ 80) = 1 / 2 ^ 80 := by
    apply roundUnderflow_of_lt
    rw [abs_of_pos (by positivity)]
    apply one_div_lt_one_div_of_lt (by positivity)
    exact pow_lt_pow_right₀ (by norm_num) (by norm_num)
  have hq : RoundUnderflow ((1 : ℝ) / 2 ^ 80 * (1 / 2 ^ 80)) = 0 := by
    unfold RoundUnderflow
    rw [if_pos]
    rw [abs_of_pos (by positivity)]
    have e : (1 : ℝ) / 2 ^ 80 * (1 / 2 ^ 80) = 1 / 2 ^ 160 := by
      rw [div_mul_div_comm, one_mul, ← pow_add]
    rw [e]
    apply one_div_le_one_div_of_le (by positivity)
    exact pow_le_pow_right₀ (by norm_num) (by norm_num)
  have h0 : RoundUnderflow (0 : ℝ) = 0 := by simp [RoundUnderflow]
  have hS : RoundedSquaresOfWeight RoundUnderflow ((1 : ℝ) / 2 ^ 80) = 0 := by
    simp only [RoundedSquaresOfWeight, hq, add_zero, h0]
  have h : GetLinearMotionIntensityFromMotionDataRounded (idealEngine Real.sqrt Real.pi)
      RoundUnderflow ⟨1, 1, 1, 1, 1, 0, 0, 0, 0, 0⟩
      ⟨1, 1 / 2 ^ 80, 1 / 2 ^ 80, 1 / 2 ^ 80, 1 / 2 ^ 80, 1 / 2 ^ 80, 0, 0, 0, 0, 0⟩
        = (0 : ℝ) := by
    rw [linearRounded_of_equal_weights _ _ _ _ hv (1 / 2 ^ 80) hw ⟨rfl, rfl, rfl, rfl, rfl⟩
      ⟨rfl, rfl, rfl, rfl, rfl⟩, if_pos hS]
  refine ⟨hv, by positivity, hw, h, ?_⟩
  rw [h]
  norm_num

/-- Claim C10, amended: aggregator saturation in `float` arithmetic. For every valid coefficient
set whose five linear weights all equal the same `float` `w` and every motion-data record whose
five linear channels are all exactly 1, with `S` the sum of the five squared weights as the
machine computes it: when `S` is not 0 (and the engine root of `S` is not 0) the linear
intensity equals `MotionIntensityMultiplier`, and when `S` is 0 the linear intensity is 0. The
same holds for the angular axis with its five channels and weights. `R` rounds to `float`, so
it returns the `float` values 1, `w` and the multiplier unchanged. -/
theorem intensity_saturation_rounded (E : FMath α) (R : α → α)
    (md : FMotionIntensityMotionData α) (c : FMotionIntensityCoefficients α)
    (hv : c.IsValid = true) (w : α) (hR1 : R 1 = 1) (hRw : R w = w)
    (hRm : R c.MotionIntensityMultiplier = c.MotionIntensityMultiplier) :
    ((c.LinearVelocityCoefficient = w ∧ c.PositiveLinearAccelerationCoefficient = w
        ∧ c.NegativeLinearAccelerationCoefficient = w ∧ c.PositiveLinearJerkCoefficient = w
        ∧ c.NegativeLinearJerkCoefficient = w) →
      (md.LinearVelocityNormalized = 1 ∧ md.PositiveLinearAccelerationNormalized = 1
        ∧ md.NegativeLinearAccelerationNormalized = 1 ∧ md.PositiveLinearJerkNormalized = 1
        ∧ md.NegativeLinearJerkNormalized = 1) →
      (RoundedSquaresOfWeight R w ≠ 0 → E.Sqrt (RoundedSquaresOfWeight R w) ≠ 0 →
        GetLinearMotionIntensityFromMotionDataRounded E R md c = c.MotionIntensityMultiplier)
      ∧ (RoundedSquaresOfWeight R w = 0 →
        GetLinearMotionIntensityFromMotionDataRounded E R md c = 0))
    ∧ ((c.AngularVelocityCoefficient = w ∧ c.PositiveAngularAccelerationCoefficient = w
        ∧ c.NegativeAngularAccelerationCoefficient = w ∧ c.PositiveAngularJerkCoefficient = w
        ∧ c.NegativeAngularJerkCoefficient = w) →
      (md.AngularVelocityNormalized = 1 ∧ md.PositiveAngularAccelerationNormalized = 1
        ∧ md.NegativeAngularAccelerationNormalized = 1 ∧ md.PositiveAngularJerkNormalized = 1
        ∧ md.NegativeAngularJerkNormalized = 1) →
      (RoundedSquaresOfWeight R w ≠ 0 → E.Sqrt (RoundedSquaresOfWeight R w) ≠ 0 →
        GetAngularMotionIntensityFromMotionDataRounded E R md c = c.MotionIntensityMultiplier)
      ∧ (RoundedSquaresOfWeight R w = 0 →
        GetAngularMotionIntensityFromMotionDataRounded E R md c = 0)) := by
  constructor
  · intro hc hd
    exact linearRounded_saturation E R md c hv w hR1 hRw hRm hc hd
  · intro hc hd
    rw [angularRounded_eq_linearRounded_swapAxes]
    exact linearRounded_saturation E R md.SwapAxes c.SwapAxes ((isValid_swapAxes c).trans hv) w
      hR1 hRw hRm hc hd

/-- Instance of the amended claim C10 over the reals, with the underflow rounding: multiplier 3,
every weight `1 / 2`, every channel 1; the sum of the squared weights is `5 / 4` and the linear
intensity is 3. -/
theorem intensity_saturation_rounded_witness :
    GetLinearMotionIntensityFromMotionDataRounded (idealEngine Real.sqrt Real.pi) RoundUnderflow
        ⟨1, 1, 1, 1, 1, 1, 1, 1, 1, 1⟩
        ⟨3, 1 / 2, 1 / 2, 1 / 2, 1 / 2, 1 / 2, 1 / 2, 1 / 2, 1 / 2, 1 / 2, 1 / 2⟩ = 3 := by
  have big : (1 : ℝ) / 2 ^ 150 < 1 / 4 := by
    apply one_div_lt_one_div_of_lt (by norm_num)
    calc (4 : ℝ) = 2 ^ 2 := by norm_num
      _ < 2 ^ 150 := pow_lt_pow_right₀ (by norm_num) (by norm_num)
  have r (x : ℝ) (hx : 1 / 4 ≤ x) : RoundUnderflow x = x :=
    roundUnderflow_of_lt x (by rw [abs_of_pos (by linarith)]; linarith)
  have hS : RoundedSquaresOfWeight RoundUnderflow ((1 : ℝ) / 2) = 5 / 4 := by
    unfold RoundedSquaresOfWeight
    rw [r (1 / 2 * (1 / 2)) (by norm_num), r (1 / 2 * (1 / 2) + 1 / 2 * (1 / 2)) (by norm_num),
      r (1 / 2 * (1 / 2) + 1 / 2 * (1 / 2) + 1 / 2 * (1 / 2)) (by norm_num),
      r (1 / 2 * (1 / 2) + 1 / 2 * (1 / 2) + 1 / 2 * (1 / 2) + 1 / 2 * (1 / 2)) (by norm_num),
      r (1 / 2 * (1 / 2) + 1 / 2 * (1 / 2) + 1 / 2 * (1 / 2) + 1 / 2 * (1 / 2)
        + 1 / 2 * (1 / 2)) (by norm_num)]
    norm_num
  exact ((intensity_saturation_rounded (idealEngine Real.sqrt Real.pi) RoundUnderflow
    ⟨1, 1, 1, 1, 1, 1, 1, 1, 1, 1⟩
    ⟨3, 1 / 2, 1 / 2, 1 / 2, 1 / 2, 1 / 2, 1 / 2, 1 / 2, 1 / 2, 1 / 2, 1 / 2⟩
    (by simp [FMotionIntensityCoefficients.IsValid]) (1 / 2) (r 1 (by norm_num))
    (r (1 / 2) (by norm_num)) (r 3 (by norm_num))).1
    ⟨rfl, rfl, rfl, rfl, rfl⟩ ⟨rfl, rfl, rfl, rfl, rfl⟩).1
    (by rw [hS]; norm_num)
    (by
      rw [hS]
      exact (Real.sqrt_pos.mpr (by norm_num)).ne')

end AggregatorFormulas

/-! ## Pipelines: auxiliary facts -/

section PipelineLemmas

variable [LinearOrderedField α]

theorem getSmoothedDerivative_of_pos (E : FMath α) (Current OutPrevious DeltaTime Speed : α)
    (hdt : 0 < DeltaTime) :
    GetSmoothedDerivative E Current OutPrevious DeltaTime Speed
      = ((E.FInterpTo OutPrevious Current DeltaTime Speed - OutPrevious) / DeltaTime,
         E.FInterpTo OutPrevious Current DeltaTime Speed) := by
  simp only [GetSmoothedDerivative, if_neg (not_le.mpr hdt)]

theorem getLinearVelocitySmoothed_of_pos (E : FMath α) (Current OutPrevious : FVector α)
    (DeltaTime Speed : α) (hdt : 0 < DeltaTime) :
    GetLinearVelocitySmoothed E Current OutPrevious DeltaTime Speed
      = (((E.VInterpTo OutPrevious Current DeltaTime Speed).sub OutPrevious).Length E / DeltaTime,
         E.VInterpTo OutPrevious Current DeltaTime Speed) := by
  simp only [GetLinearVelocitySmoothed, if_neg (not_le.mpr hdt)]

/-- What the linear pipeline returns when the elapsed time is positive. -/
theorem calculateLinearMotionData_of_pos (E : FMath α) (loc : FVector α) (dt : α)
    (cfg : FMotionIntensityConfig α) (sd : FMotionIntensityServiceData α)
    (md : FMotionIntensityMotionData α) (hdt : 0 < dt) :
    CalculateLinearMotionData E loc dt cfg sd md
      = ({ sd with
            PreviousLocation :=
              (GetLinearVelocitySmoothed E loc sd.PreviousLocation dt
                cfg.LocationInterpolationSpeed).2
            PreviousLinearVelocity :=
              (GetSmoothedDerivative E (LinearVelocityNormalizedOf E loc dt cfg sd)
                sd.PreviousLinearVelocity dt cfg.LinearVelocityInterpolationSpeed).2
            PreviousLinearAcceleration :=
              (GetSmoothedDerivative E (LinearAccelerationNormalized E loc dt cfg sd)
                sd.PreviousLinearAcceleration dt cfg.LinearAccelerationInterpolationSpeed).2 },
         { md with
            LinearVelocityNormalized := LinearVelocityNormalizedOf E loc dt cfg sd
            PositiveLinearAccelerationNormalized :=
              max 0 (LinearAccelerationNormalized E loc dt cfg sd)
            NegativeLinearAccelerationNormalized :=
              |min 0 (LinearAccelerationNormalized E loc dt cfg sd)|
            PositiveLinearJerkNormalized := max 0 (LinearJerkNormalized E loc dt cfg sd)
            NegativeLinearJerkNormalized := |min 0 (LinearJerkNormalized E loc dt cfg sd)| }) := by
  unfold CalculateLinearMotionData
  rw [if_neg (not_le.mpr hdt)]
  cases hc : cfg.bClampLinearVelocity <;>
    simp [LinearJerkNormalized, LinearAccelerationNormalized, LinearVelocityNormalizedOf, hc]

/-- What the angular pipeline returns when the elapsed time is positive. -/
theorem calculateAngularMotionData_of_pos (E : FMath α) (rot : FQuat α) (dt : α)
    (cfg : FMotionIntensityConfig α) (sd : FMotionIntensityServiceData α)
    (md : FMotionIntensityMotionData α) (hdt : 0 < dt) :
    CalculateAngularMotionData E rot dt cfg sd md
      = ({ sd with
            PreviousRotation :=
              (GetAngularVelocitySmoothed E rot sd.PreviousRotation dt
                cfg.RotationInterpolationSpeed).2
            PreviousAngularVelocity :=
              (GetSmoothedDerivative E (AngularVelocityNormalizedOf E rot dt cfg sd)
                sd.PreviousAngularVelocity dt cfg.AngularVelocityInterpolationSpeed).2
            PreviousAngularAcceleration :=
              (GetSmoothedDerivative E (AngularAccelerationNormalized E rot dt cfg sd)
                sd.PreviousAngularAcceleration dt cfg.AngularAccelerationInterpolationSpeed).2 },
         { md with
            AngularVelocityNormalized := AngularVelocityNormalizedOf E rot dt cfg sd
            PositiveAngularAccelerationNormalized :=
              max 0 (AngularAccelerationNormalized E rot dt cfg sd)
            NegativeAngularAccelerationNormalized :=
              |min 0 (AngularAccelerationNormalized E rot dt cfg sd)|
            PositiveAngularJerkNormalized := max 0 (AngularJerkNormalized E rot dt cfg sd)
            NegativeAngularJerkNormalized :=
              |min 0 (AngularJerkNormalized E rot dt cfg sd)| }) := by
  unfold CalculateAngularMotionData
  rw [if_neg (not_le.mpr hdt)]
  cases hc : cfg.bClampAngularVelocity <;>
    simp [AngularJerkNormalized, AngularAccelerationNormalized, AngularVelocityNormalizedOf, hc]

/-- What `CalculateMotionData` returns when the elapsed time is positive and the configuration
is valid: the first-frame block, then each enabled pipeline on a default record. -/
theorem calculateMotionData_of_valid (E : FMath α) (loc : FVector α) (rot : FRotator α) (dt : α)
    (cfg : FMotionIntensityConfig α) (sd : FMotionIntensityServiceData α) (hdt : 0 < dt)
    (hv : cfg.IsValid = true) :
    CalculateMotionData E loc rot dt cfg sd
      = ((if cfg.bCalculateAngularMotion then
            CalculateAngularMotionData E (E.Quaternion rot) dt cfg
              (if cfg.bCalculateLinearMotion then
                CalculateLinearMotionData E loc dt cfg
                  (SnapPreviousTransform loc (E.Quaternion rot) sd)
                  FMotionIntensityMotionData.Default
              else (SnapPreviousTransform loc (E.Quaternion rot) sd,
                    FMotionIntensityMotionData.Default)).1
              (if cfg.bCalculateLinearMotion then
                CalculateLinearMotionData E loc dt cfg
                  (SnapPreviousTransform loc (E.Quaternion rot) sd)
                  FMotionIntensityMotionData.Default
              else (SnapPreviousTransform loc (E.Quaternion rot) sd,
                    FMotionIntensityMotionData.Default)).2
          else
            (if cfg.bCalculateLinearMotion then
              CalculateLinearMotionData E loc dt cfg
                (SnapPreviousTransform loc (E.Quaternion rot) sd)
                FMotionIntensityMotionData.Default
            else (SnapPreviousTransform loc (E.Quaternion rot) sd,
                  FMotionIntensityMotionData.Default))).2,
         (if cfg.bCalculateAngularMotion then
            CalculateAngularMotionData E (E.Quaternion rot) dt cfg
              (if cfg.bCalculateLinearMotion then
                CalculateLinearMotionData E loc dt cfg
                  (SnapPreviousTransform loc (E.Quaternion rot) sd)
                  FMotionIntensityMotionData.Default
              else (SnapPreviousTransform loc (E.Quaternion rot) sd,
                    FMotionIntensityMotionData.Default)).1
              (if cfg.bCalculateLinearMotion then
                CalculateLinearMotionData E loc dt cfg
                  (SnapPreviousTransform loc (E.Quaternion rot) sd)
                  FMotionIntensityMotionData.Default
              else (SnapPreviousTransform loc (E.Quaternion rot) sd,
                    FMotionIntensityMotionData.Default)).2
          else
            (if cfg.bCalculateLinearMotion then
              CalculateLinearMotionData E loc dt cfg
                (SnapPreviousTransform loc (E.Quaternion rot) sd)
                FMotionIntensityMotionData.Default
            else (SnapPreviousTransform loc (E.Quaternion rot) sd,
                  FMotionIntensityMotionData.Default))).1) := by
  simp only [CalculateMotionData, if_neg (not_le.mpr hdt), hv, Bool.not_true, Bool.false_eq_true,
    if_false, SnapPreviousTransform]

theorem calculateMotionData_eq_of_nonpos (E : FMath α) (loc : FVector α)
    (rot : FRotator α) (dt : α) (cfg : FMotionIntensityConfig α)
    (sd : FMotionIntensityServiceData α) (hdt : dt ≤ 0) :
    CalculateMotionData E loc rot dt cfg sd = (FMotionIntensityMotionData.Default, sd) := by
  simp only [CalculateMotionData, if_pos hdt]

theorem calculateMotionData_eq_of_invalid (E : FMath α) (loc : FVector α)
    (rot : FRotator α) (dt : α) (cfg : FMotionIntensityConfig α)
    (sd : FMotionIntensityServiceData α) (hv : cfg.IsValid = false) :
    CalculateMotionData E loc rot dt cfg sd = (FMotionIntensityMotionData.Default, sd) := by
  by_cases hdt : dt ≤ 0
  · simp only [CalculateMotionData, if_pos hdt]
  · simp only [CalculateMotionData, if_neg hdt, hv, Bool.not_false, if_true]

end PipelineLemmas

/-! ## Update: orchestration, first frame, clamping -/

section Update

variable [LinearOrderedField α]

/-- Claim C11: for every configuration with `bCalculateLinearMotion = bCalculateAngularMotion =
false`, and every location, rotation, elapsed time and entity state, `CalculateMotionData`
returns a motion-data record whose ten channels are all 0. -/
theorem calculateMotionData_of_both_disabled (E : FMath α) (Location : FVector α)
    (Rotation : FRotator α) (DeltaTime : α) (Config : FMotionIntensityConfig α)
    (ServiceData : FMotionIntensityServiceData α)
    (hl : Config.bCalculateLinearMotion = false) (ha : Config.bCalculateAngularMotion = false) :
    (CalculateMotionData E Location Rotation DeltaTime Config ServiceData).1
      = ⟨0, 0, 0, 0, 0, 0, 0, 0, 0, 0⟩ := by
  unfold CalculateMotionData
  by_cases hdt : DeltaTime ≤ 0
  · simp only [if_pos hdt, FMotionIntensityMotionData.Default]
  · cases hv : Config.IsValid <;>
      simp [hdt, hv, hl, ha, FMotionIntensityMotionData.Default]

/-- Instance of claim C11 over the reals: both pipelines switched off in the default
configuration, a sample far from the origin, a freshly constructed state. -/
theorem calculateMotionData_of_both_disabled_witness :
    (CalculateMotionData (idealEngine Real.sqrt Real.pi) ⟨100, 200, 300⟩ ⟨0, 90, 0⟩ (1 / 60)
        { (FMotionIntensityConfig.Default : FMotionIntensityConfig ℝ) with
          bCalculateLinearMotion := false, bCalculateAngularMotion := false }
        FMotionIntensityServiceData.Default).1
      = ⟨0, 0, 0, 0, 0, 0, 0, 0, 0, 0⟩ :=
  calculateMotionData_of_both_disabled _ _ _ _ _ _ rfl rfl

/-- Claim C12: no velocity spike on the first frame. For every location, rotation, `DeltaTime >
0` and valid configuration with linear motion enabled, a call on an entity state whose
reset-pending flag is set yields `LinearVelocityNormalized = 0`, given that the engine
interpolation from the sampled point to itself returns that point and that the engine root of 0
is 0. -/
theorem calculateMotionData_first_frame_velocity (E : FMath α) (Location : FVector α)
    (Rotation : FRotator α) (DeltaTime : α) (Config : FMotionIntensityConfig α)
    (ServiceData : FMotionIntensityServiceData α) (hdt : 0 < DeltaTime)
    (hv : Config.IsValid = true) (hl : Config.bCalculateLinearMotion = true)
    (hflag : ServiceData.bSetPreviousTransformToCurrent = true)
    (hfix : ∀ dt speed, E.VInterpTo Location Location dt speed = Location)
    (hzero : E.Sqrt 0 = 0) :
    (CalculateMotionData E Location Rotation DeltaTime Config
      ServiceData).1.LinearVelocityNormalized = 0 := by
  have hvel : LinearVelocityNormalizedOf E Location DeltaTime Config
      (SnapPreviousTransform Location (E.Quaternion Rotation) ServiceData) = 0 := by
    have hlen : (Location.sub Location).Length E = 0 := by
      simp [FVector.sub, FVector.Length, hzero]
    simp only [LinearVelocityNormalizedOf, SnapPreviousTransform, hflag, if_true,
      getLinearVelocitySmoothed_of_pos E _ _ _ _ hdt, hfix, hlen, zero_div]
    split_ifs
    · exact min_eq_right zero_le_one
    · rfl
  rw [calculateMotionData_of_valid E _ _ _ _ _ hdt hv]
  cases ha : Config.bCalculateAngularMotion <;>
    simp [hl, calculateLinearMotionData_of_pos E _ _ _ _ _ hdt,
      calculateAngularMotionData_of_pos E _ _ _ _ _ hdt, hvel]

/-- Instance of claim C12 over the reals: the default configuration, a freshly constructed state
and a first sample far from the origin. -/
theorem calculateMotionData_first_frame_velocity_witness :
    (CalculateMotionData (idealEngine Real.sqrt Real.pi) ⟨100000, -200000, 300000⟩ ⟨0, 90, 0⟩
        (1 / 60) FMotionIntensityConfig.Default
        FMotionIntensityServiceData.Default).1.LinearVelocityNormalized = 0 :=
  calculateMotionData_first_frame_velocity _ _ _ _ _ _ (by norm_num)
    (by simp [FMotionIntensityConfig.IsValid, FMotionIntensityConfig.Default]) rfl rfl
    (by intro dt speed; simp [idealEngine])
    (by simp [idealEngine])

/-- Claim C13: velocity clamping. For every update with `DeltaTime > 0`, a valid configuration,
linear motion enabled and `bClampLinearVelocity = true`, the returned `LinearVelocityNormalized`
is `min 1 (speed / MaxLinearVelocity)` with `speed` the smoothed speed of the call; it never
exceeds 1 and is exactly 1 whenever `speed / MaxLinearVelocity` is at least 1. -/
theorem calculateMotionData_velocity_clamped (E : FMath α) (Location : FVector α)
    (Rotation : FRotator α) (DeltaTime : α) (Config : FMotionIntensityConfig α)
    (ServiceData : FMotionIntensityServiceData α) (hdt : 0 < DeltaTime)
    (hv : Config.IsValid = true) (hl : Config.bCalculateLinearMotion = true)
    (hc : Config.bClampLinearVelocity = true) :
    (CalculateMotionData E Location Rotation DeltaTime Config
        ServiceData).1.LinearVelocityNormalized
      = min 1 ((GetLinearVelocitySmoothed E Location
          (SnapPreviousTransform Location (E.Quaternion Rotation) ServiceData).PreviousLocation
          DeltaTime Config.LocationInterpolationSpeed).1 / Config.MaxLinearVelocity)
    ∧ (CalculateMotionData E Location Rotation DeltaTime Config
        ServiceData).1.LinearVelocityNormalized ≤ 1
    ∧ (1 ≤ (GetLinearVelocitySmoothed E Location
          (SnapPreviousTransform Location (E.Quaternion Rotation) ServiceData).PreviousLocation
          DeltaTime Config.LocationInterpolationSpeed).1 / Config.MaxLinearVelocity →
        (CalculateMotionData E Location Rotation DeltaTime Config
          ServiceData).1.LinearVelocityNormalized = 1) := by
  have h : (CalculateMotionData E Location Rotation DeltaTime Config
        ServiceData).1.LinearVelocityNormalized
      = min 1 ((GetLinearVelocitySmoothed E Location
          (SnapPreviousTransform Location (E.Quaternion Rotation) ServiceData).PreviousLocation
          DeltaTime Config.LocationInterpolationSpeed).1 / Config.MaxLinearVelocity) := by
    rw [calculateMotionData_of_valid E _ _ _ _ _ hdt hv]
    cases ha : Config.bCalculateAngularMotion <;>
      simp [hl, hc, calculateLinearMotionData_of_pos E _ _ _ _ _ hdt,
        calculateAngularMotionData_of_pos E _ _ _ _ _ hdt, LinearVelocityNormalizedOf]
  refine ⟨h, ?_, ?_⟩
  · rw [h]
    exact min_le_left _ _
  · intro h1
    rw [h]
    exact min_eq_left h1

/-- Instance of claim C13 over the reals: clamping on, the stored location at the origin and a
sample 6000 away along `X` after `1 / 60`; the smoothed speed is 60000 and the channel is 1. -/
theorem calculateMotionData_velocity_clamped_witness :
    (CalculateMotionData (idealEngine Real.sqrt Real.pi) ⟨6000, 0, 0⟩ ⟨0, 0, 0⟩ (1 / 60)
        { (FMotionIntensityConfig.Default : FMotionIntensityConfig ℝ) with
          bClampLinearVelocity := true }
        { (FMotionIntensityServiceData.Default : FMotionIntensityServiceData ℝ) with
          bSetPreviousTransformToCurrent := false }).1.LinearVelocityNormalized = 1 :=
  (calculateMotionData_velocity_clamped _ _ _ _ _ _ (by norm_num)
    (by simp [FMotionIntensityConfig.IsValid, FMotionIntensityConfig.Default]) rfl rfl).2.2
    (by
      have h : Real.sqrt 1000000 = 1000 := by
        rw [show (1000000 : ℝ) = 1000 * 1000 by norm_num]
        exact Real.sqrt_mul_self (by norm_num)
      simp only [GetLinearVelocitySmoothed, SnapPreviousTransform,
        FMotionIntensityServiceData.Default, FMotionIntensityConfig.Default, idealEngine,
        FVector.sub, FVector.Length, Clamp, FVector.ZeroVector]
      norm_num
      rw [h]
      norm_num)

end Update

/-! ## Pipelines: sign splitting, reset, disabled pipelines, derivative chain, flag -/

section Pipelines

variable [LinearOrderedField α]

theorem signSplit_max_min (x : α) : SignSplit x (max 0 x) |min 0 x| := by
  unfold SignSplit
  rcases le_total 0 x with h | h
  · rw [max_eq_right h, min_eq_left h, abs_zero]
    refine ⟨rfl, rfl, h, le_refl 0, sub_zero x, ?_, ?_⟩
    · intro hx
      exact Or.inl ⟨hx, rfl⟩
    · constructor
      · rintro ⟨hp, _⟩
        exact hp
      · intro hx
        exact ⟨hx, rfl⟩
  · rw [max_eq_left h, min_eq_right h, abs_of_nonpos h]
    refine ⟨rfl, rfl, le_refl 0, neg_nonneg.mpr h, by ring, ?_, ?_⟩
    · intro hx
      exact Or.inr ⟨rfl, neg_ne_zero.mpr hx⟩
    · constructor
      · rintro ⟨_, hn⟩
        exact neg_eq_zero.mp hn
      · intro hx
        exact ⟨rfl, neg_eq_zero.mpr hx⟩

/-- Claim C14: sign splitting. For every call of a pipeline with `DeltaTime > 0`, each signed
acceleration or jerk value `x` it computes and the two channels it writes for `x` satisfy:
positive `= max 0 x`, negative `= |min 0 x|`, both are non-negative, positive minus negative is
`x`, exactly one of them is non-zero when `x` is non-zero, and both are 0 only when `x = 0`. -/
theorem pipelines_signSplit (E : FMath α) (Location : FVector α) (Rotation : FQuat α)
    (DeltaTime : α) (Config : FMotionIntensityConfig α)
    (ServiceData : FMotionIntensityServiceData α) (MotionData : FMotionIntensityMotionData α)
    (hdt : 0 < DeltaTime) :
    SignSplit (LinearAccelerationNormalized E Location DeltaTime Config ServiceData)
        (CalculateLinearMotionData E Location DeltaTime Config ServiceData
          MotionData).2.PositiveLinearAccelerationNormalized
        (CalculateLinearMotionData E Location DeltaTime Config ServiceData
          MotionData).2.NegativeLinearAccelerationNormalized
    ∧ SignSplit (LinearJerkNormalized E Location DeltaTime Config ServiceData)
        (CalculateLinearMotionData E Location DeltaTime Config ServiceData
          MotionData).2.PositiveLinearJerkNormalized
        (CalculateLinearMotionData E Location DeltaTime Config ServiceData
          MotionData).2.NegativeLinearJerkNormalized
    ∧ SignSplit (AngularAccelerationNormalized E Rotation DeltaTime Config ServiceData)
        (CalculateAngularMotionData E Rotation DeltaTime Config ServiceData
          MotionData).2.PositiveAngularAccelerationNormalized
        (CalculateAngularMotionData E Rotation DeltaTime Config ServiceData
          MotionData).2.NegativeAngularAccelerationNormalized
    ∧ SignSplit (AngularJerkNormalized E Rotation DeltaTime Config ServiceData)
        (CalculateAngularMotionData E Rotation DeltaTime Config ServiceData
          MotionData).2.PositiveAngularJerkNormalized
        (CalculateAngularMotionData E Rotation DeltaTime Config ServiceData
          MotionData).2.NegativeAngularJerkNormalized := by
  rw [calculateLinearMotionData_of_pos E _ _ _ _ _ hdt,
    calculateAngularMotionData_of_pos E _ _ _ _ _ hdt]
  exact ⟨signSplit_max_min _, signSplit_max_min _, signSplit_max_min _, signSplit_max_min _⟩

/-- Instance of claim C14 over the reals: both pipelines on the default configuration and a
freshly constructed state, elapsed time `1 / 60`, a sample 6000 away along `X`. -/
theorem pipelines_signSplit_witness :
    SignSplit
        (LinearAccelerationNormalized (idealEngine Real.sqrt Real.pi) ⟨6000, 0, 0⟩ (1 / 60)
          FMotionIntensityConfig.Default FMotionIntensityServiceData.Default)
        (CalculateLinearMotionData (idealEngine Real.sqrt Real.pi) ⟨6000, 0, 0⟩ (1 / 60)
          FMotionIntensityConfig.Default FMotionIntensityServiceData.Default
          FMotionIntensityMotionData.Default).2.PositiveLinearAccelerationNormalized
        (CalculateLinearMotionData (idealEngine Real.sqrt Real.pi) ⟨6000, 0, 0⟩ (1 / 60)
          FMotionIntensityConfig.Default FMotionIntensityServiceData.Default
          FMotionIntensityMotionData.Default).2.NegativeLinearAccelerationNormalized :=
  (pipelines_signSplit (idealEngine Real.sqrt Real.pi) ⟨6000, 0, 0⟩ FQuat.Identity (1 / 60)
    FMotionIntensityConfig.Default FMotionIntensityServiceData.Default
    FMotionIntensityMotionData.Default (by norm_num)).1

/-- Claim C15: for every entity state, `ResetServiceData` leaves the state equal to a freshly
constructed one: reset-pending flag true, previous location the zero vector, previous rotation
the identity, the six previous velocity, acceleration and jerk scalars 0; consequently resetting
twice is the same as resetting once. -/
theorem resetServiceData_eq (ServiceData : FMotionIntensityServiceData α) :
    ResetServiceData ServiceData = ⟨true, ⟨0, 0, 0⟩, ⟨0, 0, 0, 1⟩, 0, 0, 0, 0, 0, 0⟩
    ∧ ResetServiceData ServiceData = FMotionIntensityServiceData.Default
    ∧ ResetServiceData (ResetServiceData ServiceData) = ResetServiceData ServiceData :=
  ⟨rfl, rfl, rfl⟩

/-- Claim C17: channels of a disabled pipeline stay at zero and its cells are not touched. With
`bCalculateLinearMotion = false` the five linear channels of the returned record are 0 and
`PreviousLinearVelocity` and `PreviousLinearAcceleration` are unchanged, whether or not the
angular pipeline runs; with `bCalculateAngularMotion = false` the five angular channels are 0
and `PreviousAngularVelocity` and `PreviousAngularAcceleration` are unchanged. This holds for
every elapsed time and every configuration, in particular for `DeltaTime > 0` and a valid one. -/
theorem calculateMotionData_disabled_pipeline (E : FMath α) (Location : FVector α)
    (Rotation : FRotator α) (DeltaTime : α) (Config : FMotionIntensityConfig α)
    (ServiceData : FMotionIntensityServiceData α) :
    (Config.bCalculateLinearMotion = false →
      ((CalculateMotionData E Location Rotation DeltaTime Config
          ServiceData).1.LinearVelocityNormalized = 0
        ∧ (CalculateMotionData E Location Rotation DeltaTime Config
          ServiceData).1.PositiveLinearAccelerationNormalized = 0
        ∧ (CalculateMotionData E Location Rotation DeltaTime Config
          ServiceData).1.NegativeLinearAccelerationNormalized = 0
        ∧ (CalculateMotionData E Location Rotation DeltaTime Config
          ServiceData).1.PositiveLinearJerkNormalized = 0
        ∧ (CalculateMotionData E Location Rotation DeltaTime Config
          ServiceData).1.NegativeLinearJerkNormalized = 0)
      ∧ (CalculateMotionData E Location Rotation DeltaTime Config
          ServiceData).2.PreviousLinearVelocity = ServiceData.PreviousLinearVelocity
      ∧ (CalculateMotionData E Location Rotation DeltaTime Config
          ServiceData).2.PreviousLinearAcceleration = ServiceData.PreviousLinearAcceleration)
    ∧ (Config.bCalculateAngularMotion = false →
      ((CalculateMotionData E Location Rotation DeltaTime Config
          ServiceData).1.AngularVelocityNormalized = 0
        ∧ (CalculateMotionData E Location Rotation DeltaTime Config
          ServiceData).1.PositiveAngularAccelerationNormalized = 0
        ∧ (CalculateMotionData E Location Rotation DeltaTime Config
          ServiceData).1.NegativeAngularAccelerationNormalized = 0
        ∧ (CalculateMotionData E Location Rotation DeltaTime Config
          ServiceData).1.PositiveAngularJerkNormalized = 0
        ∧ (CalculateMotionData E Location Rotation DeltaTime Config
          ServiceData).1.NegativeAngularJerkNormalized = 0)
      ∧ (CalculateMotionData E Location Rotation DeltaTime Config
          ServiceData).2.PreviousAngularVelocity = ServiceData.PreviousAngularVelocity
      ∧ (CalculateMotionData E Location Rotation DeltaTime Config
          ServiceData).2.PreviousAngularAcceleration
            = ServiceData.PreviousAngularAcceleration) := by
  by_cases hdt : DeltaTime ≤ 0
  · rw [calculateMotionData_eq_of_nonpos E _ _ _ _ _ hdt]
    exact ⟨fun _ => ⟨⟨rfl, rfl, rfl, rfl, rfl⟩, rfl, rfl⟩,
      fun _ => ⟨⟨rfl, rfl, rfl, rfl, rfl⟩, rfl, rfl⟩⟩
  · have hpos : 0 < DeltaTime := not_le.mp hdt
    cases hv : Config.IsValid
    · rw [calculateMotionData_eq_of_invalid E _ _ _ _ _ hv]
      exact ⟨fun _ => ⟨⟨rfl, rfl, rfl, rfl, rfl⟩, rfl, rfl⟩,
        fun _ => ⟨⟨rfl, rfl, rfl, rfl, rfl⟩, rfl, rfl⟩⟩
    · rw [calculateMotionData_of_valid E _ _ _ _ _ hpos hv]
      constructor
      · intro hl
        cases ha : Config.bCalculateAngularMotion <;>
          cases hf : ServiceData.bSetPreviousTransformToCurrent <;>
          simp [hl, hf, calculateAngularMotionData_of_pos E _ _ _ _ _ hpos,
            SnapPreviousTransform, FMotionIntensityMotionData.Default]
      · intro ha
        cases hl : Config.bCalculateLinearMotion <;>
          cases hf : ServiceData.bSetPreviousTransformToCurrent <;>
          simp [ha, hf, calculateLinearMotionData_of_pos E _ _ _ _ _ hpos,
            SnapPreviousTransform, FMotionIntensityMotionData.Default]

/-- Instance of claim C17 over the reals: the linear pipeline switched off in the default
configuration, the angular one left on; the stored linear velocity 3 is still there after the
call. -/
theorem calculateMotionData_disabled_pipeline_witness :
    (CalculateMotionData (idealEngine Real.sqrt Real.pi) ⟨6000, 0, 0⟩ ⟨0, 90, 0⟩ (1 / 60)
        { (FMotionIntensityConfig.Default : FMotionIntensityConfig ℝ) with
          bCalculateLinearMotion := false }
        { (FMotionIntensityServiceData.Default : FMotionIntensityServiceData ℝ) with
          PreviousLinearVelocity := 3 }).1.LinearVelocityNormalized = 0
    ∧ (CalculateMotionData (idealEngine Real.sqrt Real.pi) ⟨6000, 0, 0⟩ ⟨0, 90, 0⟩ (1 / 60)
        { (FMotionIntensityConfig.Default : FMotionIntensityConfig ℝ) with
          bCalculateLinearMotion := false }
        { (FMotionIntensityServiceData.Default : FMotionIntensityServiceData ℝ) with
          PreviousLinearVelocity := 3 }).2.PreviousLinearVelocity = 3 :=
  ⟨((calculateMotionData_disabled_pipeline _ _ _ _ _ _).1 rfl).1.1,
   ((calculateMotionData_disabled_pipeline _ _ _ _ _ _).1 rfl).2.1⟩

/-- The derivative chain of the linear pipeline alone, for a positive elapsed time. -/
theorem calculateLinearMotionData_chain (E : FMath α) (loc : FVector α) (dt : α)
    (cfg : FMotionIntensityConfig α) (sd : FMotionIntensityServiceData α)
    (md : FMotionIntensityMotionData α) (hdt : 0 < dt) :
    (CalculateLinearMotionData E loc dt cfg sd md).2.PositiveLinearAccelerationNormalized
        - (CalculateLinearMotionData E loc dt cfg sd md).2.NegativeLinearAccelerationNormalized
      = ((CalculateLinearMotionData E loc dt cfg sd md).1.PreviousLinearVelocity
          - sd.PreviousLinearVelocity) / dt / cfg.LinearVelocityInterpolationSpeed
    ∧ (CalculateLinearMotionData E loc dt cfg sd md).2.PositiveLinearJerkNormalized
        - (CalculateLinearMotionData E loc dt cfg sd md).2.NegativeLinearJerkNormalized
      = ((CalculateLinearMotionData E loc dt cfg sd md).1.PreviousLinearAcceleration
          - sd.PreviousLinearAcceleration) / dt / cfg.LinearAccelerationInterpolationSpeed := by
  rw [calculateLinearMotionData_of_pos E _ _ _ _ _ hdt]
  refine ⟨?_, ?_⟩
  · show max 0 _ - |min 0 _| = _
    rw [(signSplit_max_min _).2.2.2.2.1]
    simp only [LinearAccelerationNormalized, getSmoothedDerivative_of_pos E _ _ _ _ hdt]
  · show max 0 _ - |min 0 _| = _
    rw [(signSplit_max_min _).2.2.2.2.1]
    simp only [LinearJerkNormalized, getSmoothedDerivative_of_pos E _ _ _ _ hdt]

/-- Claim C19: rescaled derivative chain of the linear pipeline. For every update with
`DeltaTime > 0`, a valid configuration and linear motion enabled, the positive minus the
negative acceleration channel equals `(new PreviousLinearVelocity - old PreviousLinearVelocity) /
DeltaTime / LinearVelocityInterpolationSpeed`, and the positive minus the negative jerk channel
equals `(new PreviousLinearAcceleration - old PreviousLinearAcceleration) / DeltaTime /
LinearAccelerationInterpolationSpeed`, old and new being the cells before and after the call. -/
theorem calculateMotionData_derivative_chain (E : FMath α) (Location : FVector α)
    (Rotation : FRotator α) (DeltaTime : α) (Config : FMotionIntensityConfig α)
    (ServiceData : FMotionIntensityServiceData α) (hdt : 0 < DeltaTime)
    (hv : Config.IsValid = true) (hl : Config.bCalculateLinearMotion = true) :
    (CalculateMotionData E Location Rotation DeltaTime Config
        ServiceData).1.PositiveLinearAccelerationNormalized
      - (CalculateMotionData E Location Rotation DeltaTime Config
        ServiceData).1.NegativeLinearAccelerationNormalized
      = ((CalculateMotionData E Location Rotation DeltaTime Config
          ServiceData).2.PreviousLinearVelocity - ServiceData.PreviousLinearVelocity)
        / DeltaTime / Config.LinearVelocityInterpolationSpeed
    ∧ (CalculateMotionData E Location Rotation DeltaTime Config
        ServiceData).1.PositiveLinearJerkNormalized
      - (CalculateMotionData E Location Rotation DeltaTime Config
        ServiceData).1.NegativeLinearJerkNormalized
      = ((CalculateMotionData E Location Rotation DeltaTime Config
          ServiceData).2.PreviousLinearAcceleration - ServiceData.PreviousLinearAcceleration)
        / DeltaTime / Config.LinearAccelerationInterpolationSpeed := by
  have hsnapV : (SnapPreviousTransform Location (E.Quaternion Rotation)
      ServiceData).PreviousLinearVelocity = ServiceData.PreviousLinearVelocity := by
    unfold SnapPreviousTransform
    split_ifs <;> rfl
  have hsnapA : (SnapPreviousTransform Location (E.Quaternion Rotation)
      ServiceData).PreviousLinearAcceleration = ServiceData.PreviousLinearAcceleration := by
    unfold SnapPreviousTransform
    split_ifs <;> rfl
  have hc := calculateLinearMotionData_chain E Location DeltaTime Config
    (SnapPreviousTransform Location (E.Quaternion Rotation) ServiceData)
    FMotionIntensityMotionData.Default hdt
  rw [hsnapV, hsnapA] at hc
  rw [calculateMotionData_of_valid E _ _ _ _ _ hdt hv]
  cases ha : Config.bCalculateAngularMotion
  · simpa [hl] using hc
  · simpa [hl, calculateAngularMotionData_of_pos E _ _ _ _ _ hdt] using hc

/-- Instance of claim C19 over the reals: the default configuration, a state that already
holds a location, and a sample 6000 further along `X` after `1 / 60`. -/
theorem calculateMotionData_derivative_chain_witness :
    (CalculateMotionData (idealEngine Real.sqrt Real.pi) ⟨6000, 0, 0⟩ ⟨0, 0, 0⟩ (1 / 60)
        FMotionIntensityConfig.Default
        { (FMotionIntensityServiceData.Default : FMotionIntensityServiceData ℝ) with
          bSetPreviousTransformToCurrent := false }).1.PositiveLinearAccelerationNormalized
      - (CalculateMotionData (idealEngine Real.sqrt Real.pi) ⟨6000, 0, 0⟩ ⟨0, 0, 0⟩ (1 / 60)
        FMotionIntensityConfig.Default
        { (FMotionIntensityServiceData.Default : FMotionIntensityServiceData ℝ) with
          bSetPreviousTransformToCurrent := false }).1.NegativeLinearAccelerationNormalized
      = ((CalculateMotionData (idealEngine Real.sqrt Real.pi) ⟨6000, 0, 0⟩ ⟨0, 0, 0⟩ (1 / 60)
          FMotionIntensityConfig.Default
          { (FMotionIntensityServiceData.Default : FMotionIntensityServiceData ℝ) with
            bSetPreviousTransformToCurrent := false }).2.PreviousLinearVelocity - 0)
        / (1 / 60) / 10 :=
  (calculateMotionData_derivative_chain (idealEngine Real.sqrt Real.pi) ⟨6000, 0, 0⟩ ⟨0, 0, 0⟩
    (1 / 60) FMotionIntensityConfig.Default
    { (FMotionIntensityServiceData.Default : FMotionIntensityServiceData ℝ) with
      bSetPreviousTransformToCurrent := false }
    (by norm_num) (by simp [FMotionIntensityConfig.IsValid, FMotionIntensityConfig.Default])
    rfl).1

/-- Claim C20: the reset-pending flag is a one-way pending-to-settled machine under update.
After every `CalculateMotionData` call with `DeltaTime > 0` and a valid configuration the flag is
false, whichever pipelines are enabled; when it was true before such a call and both pipelines
are disabled, the state afterwards has `PreviousLocation` equal to the sampled location and
`PreviousRotation` equal to the quaternion of the sampled rotation; and no call, whatever its
elapsed time and configuration, changes the flag from false to true. -/
theorem calculateMotionData_flag (E : FMath α) (Location : FVector α)
    (Rotation : FRotator α) (DeltaTime : α) (Config : FMotionIntensityConfig α)
    (ServiceData : FMotionIntensityServiceData α) :
    (0 < DeltaTime → Config.IsValid = true →
      (CalculateMotionData E Location Rotation DeltaTime Config
        ServiceData).2.bSetPreviousTransformToCurrent = false)
    ∧ (0 < DeltaTime → Config.IsValid = true →
      ServiceData.bSetPreviousTransformToCurrent = true →
      Config.bCalculateLinearMotion = false → Config.bCalculateAngularMotion = false →
      (CalculateMotionData E Location Rotation DeltaTime Config
          ServiceData).2.PreviousLocation = Location
        ∧ (CalculateMotionData E Location Rotation DeltaTime Config
          ServiceData).2.PreviousRotation = E.Quaternion Rotation)
    ∧ (ServiceData.bSetPreviousTransformToCurrent = false →
      (CalculateMotionData E Location Rotation DeltaTime Config
        ServiceData).2.bSetPreviousTransformToCurrent = false) := by
  have hsnap : (SnapPreviousTransform Location (E.Quaternion Rotation)
      ServiceData).bSetPreviousTransformToCurrent = false := by
    unfold SnapPreviousTransform
    cases hf : ServiceData.bSetPreviousTransformToCurrent <;> simp [hf]
  have hsettled : 0 < DeltaTime → Config.IsValid = true →
      (CalculateMotionData E Location Rotation DeltaTime Config
        ServiceData).2.bSetPreviousTransformToCurrent = false := by
    intro hdt hv
    rw [calculateMotionData_of_valid E _ _ _ _ _ hdt hv]
    cases hl : Config.bCalculateLinearMotion <;> cases ha : Config.bCalculateAngularMotion <;>
      simp [calculateLinearMotionData_of_pos E _ _ _ _ _ hdt,
        calculateAngularMotionData_of_pos E _ _ _ _ _ hdt, hsnap]
  refine ⟨hsettled, ?_, ?_⟩
  · intro hdt hv hf hl ha
    rw [calculateMotionData_of_valid E _ _ _ _ _ hdt hv]
    simp [hl, ha, SnapPreviousTransform, hf]
  · intro hf
    by_cases hdt : DeltaTime ≤ 0
    · rw [calculateMotionData_eq_of_nonpos E _ _ _ _ _ hdt]
      exact hf
    · cases hv : Config.IsValid
      · rw [calculateMotionData_eq_of_invalid E _ _ _ _ _ hv]
        exact hf
      · exact hsettled (not_le.mp hdt) hv

/-- Instance of claim C20 over the reals: a freshly constructed state, both pipelines switched
off in the default configuration; after the call the flag is false and the stored location is
the sample. -/
theorem calculateMotionData_flag_witness :
    (CalculateMotionData (idealEngine Real.sqrt Real.pi) ⟨100, 200, 300⟩ ⟨0, 90, 0⟩ (1 / 60)
        { (FMotionIntensityConfig.Default : FMotionIntensityConfig ℝ) with
          bCalculateLinearMotion := false, bCalculateAngularMotion := false }
        FMotionIntensityServiceData.Default).2.bSetPreviousTransformToCurrent = false
    ∧ (CalculateMotionData (idealEngine Real.sqrt Real.pi) ⟨100, 200, 300⟩ ⟨0, 90, 0⟩ (1 / 60)
        { (FMotionIntensityConfig.Default : FMotionIntensityConfig ℝ) with
          bCalculateLinearMotion := false, bCalculateAngularMotion := false }
        FMotionIntensityServiceData.Default).2.PreviousLocation = ⟨100, 200, 300⟩ :=
  ⟨(calculateMotionData_flag _ _ _ _ _ _).1 (by norm_num)
      (by simp [FMotionIntensityConfig.IsValid, FMotionIntensityConfig.Default]),
   ((calculateMotionData_flag _ _ _ _ _ _).2.1 (by norm_num)
      (by simp [FMotionIntensityConfig.IsValid, FMotionIntensityConfig.Default])
      rfl rfl rfl).1⟩

end Pipelines

/-! ## Scalar filter: division of an interval into frames -/

section ScalarFilter

variable [LinearOrderedField α]

theorem clamp_unit_of_nonneg (x : α) (hx : 0 ≤ x) : Clamp x 0 1 = min x 1 := by
  unfold Clamp
  rw [if_neg (not_lt.mpr hx)]
  by_cases h : x < 1
  · rw [if_pos h, min_eq_left h.le]
  · rw [if_neg h, min_eq_right (not_lt.mp h)]

theorem ue_small_number_pos : (0 : α) < UE_SMALL_NUMBER := by
  unfold UE_SMALL_NUMBER
  positivity

/-- The engine interpolation returns the target when the target is within the snap distance. -/
theorem fInterpToBody_of_close (Current Target DeltaTime Speed : α)
    (h : Square (Target - Current) < UE_SMALL_NUMBER) :
    FInterpToBody Current Target DeltaTime Speed = Target := by
  unfold FInterpToBody
  by_cases hs : Speed ≤ 0
  · rw [if_pos hs]
  · rw [if_neg hs]
    simp only
    rw [if_pos h]

/-- The engine interpolation returns the target when the blend fraction is clamped to 1. -/
theorem fInterpToBody_of_full (Current Target DeltaTime Speed : α)
    (h : 1 ≤ DeltaTime * Speed) :
    FInterpToBody Current Target DeltaTime Speed = Target := by
  unfold FInterpToBody
  by_cases hs : Speed ≤ 0
  · rw [if_pos hs]
  · rw [if_neg hs]
    simp only
    by_cases hd : Square (Target - Current) < UE_SMALL_NUMBER
    · rw [if_pos hd]
    · rw [if_neg hd, clamp_unit_of_nonneg _ (zero_le_one.trans h), min_eq_right h]
      ring

theorem fInterpToBody_self (Target DeltaTime Speed : α) :
    FInterpToBody Target Target DeltaTime Speed = Target :=
  fInterpToBody_of_close Target Target DeltaTime Speed
    (by simpa [Square] using (ue_small_number_pos : (0 : α) < UE_SMALL_NUMBER))

/-- Claim C16, as stated, fails for the engine scalar interpolation `FMath::FInterpTo`: from the
previous value 0 towards the sample 1 at interpolation speed 1, one call with elapsed time 1
leaves 1 in the cell, and two successive calls with elapsed time `1 / 2` leave `3 / 4`. -/
theorem getSmoothedDerivative_half_steps_counterexample :
    (GetSmoothedDerivative (idealEngine Real.sqrt Real.pi) 1 0 1 1).2 = 1
    ∧ (GetSmoothedDerivative (idealEngine Real.sqrt Real.pi) 1
        (GetSmoothedDerivative (idealEngine Real.sqrt Real.pi) 1 0 (1 / 2) 1).2 (1 / 2) 1).2
        = 3 / 4
    ∧ (GetSmoothedDerivative (idealEngine Real.sqrt Real.pi) 1 0 1 1).2
        ≠ (GetSmoothedDerivative (idealEngine Real.sqrt Real.pi) 1
            (GetSmoothedDerivative (idealEngine Real.sqrt Real.pi) 1 0 (1 / 2) 1).2
            (1 / 2) 1).2 := by
  have h1 : (GetSmoothedDerivative (idealEngine Real.sqrt Real.pi) 1 0 1 1).2 = (1 : ℝ) := by
    simp only [GetSmoothedDerivative, idealEngine, FInterpToBody, Square, UE_SMALL_NUMBER,
      Clamp]
    norm_num
  have h2 : (GetSmoothedDerivative (idealEngine Real.sqrt Real.pi) 1
      (GetSmoothedDerivative (idealEngine Real.sqrt Real.pi) 1 0 (1 / 2) 1).2 (1 / 2) 1).2
        = (3 / 4 : ℝ) := by
    simp only [GetSmoothedDerivative, idealEngine, FInterpToBody, Square, UE_SMALL_NUMBER,
      Clamp]
    norm_num
  refine ⟨h1, h2, ?_⟩
  rw [h1, h2]
  norm_num

/-- Claim C16, amended: for every previous smoothed value, current sample, interpolation speed
and `DeltaTime > 0` such that the sample lies within the snap distance of the engine
interpolation from the previous value (`Square (sample - previous) < UE_SMALL_NUMBER`) or
`DeltaTime * InterpolationSpeed ≥ 2`, the value left in the previous-value cell by one call of
`GetSmoothedDerivative` with `DeltaTime` equals the value left by two successive calls with
`DeltaTime / 2` against the same sample: both are the sample itself. -/
theorem getSmoothedDerivative_half_steps_agree (E : FMath α) (hF : E.FInterpToSpec)
    (Current Previous DeltaTime InterpolationSpeed : α) (hdt : 0 < DeltaTime)
    (h : Square (Current - Previous) < UE_SMALL_NUMBER ∨ 2 ≤ DeltaTime * InterpolationSpeed) :
    (GetSmoothedDerivative E Current Previous DeltaTime InterpolationSpeed).2
      = (GetSmoothedDerivative E Current
          (GetSmoothedDerivative E Current Previous (DeltaTime / 2) InterpolationSpeed).2
          (DeltaTime / 2) InterpolationSpeed).2
    ∧ (GetSmoothedDerivative E Current Previous DeltaTime InterpolationSpeed).2 = Current := by
  have hh : 0 < DeltaTime / 2 := half_pos hdt
  have e : DeltaTime / 2 * InterpolationSpeed = DeltaTime * InterpolationSpeed / 2 := by ring
  have one : FInterpToBody Previous Current DeltaTime InterpolationSpeed = Current := by
    rcases h with h | h
    · exact fInterpToBody_of_close _ _ _ _ h
    · exact fInterpToBody_of_full _ _ _ _ (by linarith)
  have half : FInterpToBody Previous Current (DeltaTime / 2) InterpolationSpeed = Current := by
    rcases h with h | h
    · exact fInterpToBody_of_close _ _ _ _ h
    · exact fInterpToBody_of_full _ _ _ _ (by rw [e]; linarith)
  rw [getSmoothedDerivative_of_pos E _ _ _ _ hdt, getSmoothedDerivative_of_pos E _ _ _ _ hh,
    getSmoothedDerivative_of_pos E _ _ _ _ hh]
  simp only
  rw [hF, hF, hF, one, half, fInterpToBody_self]
  exact ⟨rfl, rfl⟩

/-- Instance of the amended claim C16 over the reals: previous value 0, sample 1, interpolation
speed 10 and elapsed time `1 / 5`. The product is 2, so one call and two half calls agree. -/
theorem getSmoothedDerivative_half_steps_agree_witness :
    (GetSmoothedDerivative (idealEngine Real.sqrt Real.pi) 1 0 (1 / 5) 10).2
      = (GetSmoothedDerivative (idealEngine Real.sqrt Real.pi) 1
          (GetSmoothedDerivative (idealEngine Real.sqrt Real.pi) 1 0 (1 / 5 / 2) 10).2
          (1 / 5 / 2) 10).2 :=
  (getSmoothedDerivative_half_steps_agree (idealEngine Real.sqrt Real.pi)
    (fun _ _ _ _ => rfl) 1 0 (1 / 5) 10 (by norm_num) (Or.inr (by norm_num))).1

end ScalarFilter

/-! ## End-to-end: constant speed along a straight line -/

section SteadyState

theorem clamp_one_sixth : Clamp ((1 : ℝ) / 60 * 10) 0 1 = 1 / 6 := by
  unfold Clamp
  norm_num

/-- One update of the linear-only default configuration at `DeltaTime = 1 / 60`, for an engine
whose vector interpolation is the linear blend. -/
theorem steady_step (E : FMath ℝ) (hV : E.VInterpBlend) (loc : FVector ℝ) (rot : FRotator ℝ)
    (sd : FMotionIntensityServiceData ℝ) :
    (CalculateMotionData E loc rot (1 / 60)
        { (FMotionIntensityConfig.Default : FMotionIntensityConfig ℝ) with
          bCalculateAngularMotion := false } sd).2.bSetPreviousTransformToCurrent = false
    ∧ (CalculateMotionData E loc rot (1 / 60)
        { (FMotionIntensityConfig.Default : FMotionIntensityConfig ℝ) with
          bCalculateAngularMotion := false } sd).2.PreviousLocation
      = ⟨(SnapPreviousTransform loc (E.Quaternion rot) sd).PreviousLocation.X
            + (loc.X - (SnapPreviousTransform loc (E.Quaternion rot) sd).PreviousLocation.X)
              * (1 / 6),
         (SnapPreviousTransform loc (E.Quaternion rot) sd).PreviousLocation.Y
            + (loc.Y - (SnapPreviousTransform loc (E.Quaternion rot) sd).PreviousLocation.Y)
              * (1 / 6),
         (SnapPreviousTransform loc (E.Quaternion rot) sd).PreviousLocation.Z
            + (loc.Z - (SnapPreviousTransform loc (E.Quaternion rot) sd).PreviousLocation.Z)
              * (1 / 6)⟩
    ∧ (CalculateMotionData E loc rot (1 / 60)
        { (FMotionIntensityConfig.Default : FMotionIntensityConfig ℝ) with
          bCalculateAngularMotion := false } sd).1.LinearVelocityNormalized
      = E.Sqrt
          (((loc.X - (SnapPreviousTransform loc (E.Quaternion rot) sd).PreviousLocation.X)
              * (1 / 6))
            * ((loc.X - (SnapPreviousTransform loc (E.Quaternion rot) sd).PreviousLocation.X)
              * (1 / 6))
          + ((loc.Y - (SnapPreviousTransform loc (E.Quaternion rot) sd).PreviousLocation.Y)
              * (1 / 6))
            * ((loc.Y - (SnapPreviousTransform loc (E.Quaternion rot) sd).PreviousLocation.Y)
              * (1 / 6))
          + ((loc.Z - (SnapPreviousTransform loc (E.Quaternion rot) sd).PreviousLocation.Z)
              * (1 / 6))
            * ((loc.Z - (SnapPreviousTransform loc (E.Quaternion rot) sd).PreviousLocation.Z)
              * (1 / 6)))
        / (1 / 60) / 1000 := by
  have hdt : (0 : ℝ) < 1 / 60 := by norm_num
  have hv : ({ (FMotionIntensityConfig.Default : FMotionIntensityConfig ℝ) with
      bCalculateAngularMotion := false }).IsValid = true := by
    simp [FMotionIntensityConfig.IsValid, FMotionIntensityConfig.Default]
  have hflag : (SnapPreviousTransform loc (E.Quaternion rot)
      sd).bSetPreviousTransformToCurrent = false := by
    unfold SnapPreviousTransform
    cases hf : sd.bSetPreviousTransformToCurrent <;> simp [hf]
  rw [calculateMotionData_of_valid E _ _ _ _ _ hdt hv]
  simp only [FMotionIntensityConfig.Default, Bool.false_eq_true, if_false, if_true,
    calculateLinearMotionData_of_pos E _ _ _ _ _ hdt, LinearVelocityNormalizedOf,
    getLinearVelocitySmoothed_of_pos E _ _ _ _ hdt, hV _ _ _ _, clamp_one_sixth, FVector.sub,
    FVector.Length, add_sub_cancel_left, hflag]
  exact ⟨trivial, trivial, trivial⟩

theorem snapPreviousTransform_of_settled (loc : FVector ℝ) (q : FQuat ℝ)
    (sd : FMotionIntensityServiceData ℝ) (h : sd.bSetPreviousTransformToCurrent = false) :
    SnapPreviousTransform loc q sd = sd := by
  simp [SnapPreviousTransform, h]

/-- The state and the velocity channel after `n + 1` samples of the straight-line motion. -/
theorem steady_closed_form (E : FMath ℝ) (hE : E.SqrtExact) (hV : E.VInterpBlend)
    (Start Direction : FVector ℝ) (Rotation : FRotator ℝ)
    (hunit : Direction.X ^ 2 + Direction.Y ^ 2 + Direction.Z ^ 2 = 1) (n : ℕ) :
    (FeedSamples E (LinePosition Start Direction 500 (1 / 60)) Rotation (1 / 60)
        { (FMotionIntensityConfig.Default : FMotionIntensityConfig ℝ) with
          bCalculateAngularMotion := false }
        FMotionIntensityServiceData.Default n).2.bSetPreviousTransformToCurrent = false
    ∧ (FeedSamples E (LinePosition Start Direction 500 (1 / 60)) Rotation (1 / 60)
        { (FMotionIntensityConfig.Default : FMotionIntensityConfig ℝ) with
          bCalculateAngularMotion := false }
        FMotionIntensityServiceData.Default n).2.PreviousLocation
      = ⟨(LinePosition Start Direction 500 (1 / 60) n).X
            - 125 / 3 * (1 - (5 / 6) ^ n) * Direction.X,
         (LinePosition Start Direction 500 (1 / 60) n).Y
            - 125 / 3 * (1 - (5 / 6) ^ n) * Direction.Y,
         (LinePosition Start Direction 500 (1 / 60) n).Z
            - 125 / 3 * (1 - (5 / 6) ^ n) * Direction.Z⟩
    ∧ (FeedSamples E (LinePosition Start Direction 500 (1 / 60)) Rotation (1 / 60)
        { (FMotionIntensityConfig.Default : FMotionIntensityConfig ℝ) with
          bCalculateAngularMotion := false }
        FMotionIntensityServiceData.Default n).1.LinearVelocityNormalized
      = 1 / 2 * (1 - (5 / 6) ^ n) := by
  induction n with
  | zero =>
    obtain ⟨h1, h2, h3⟩ := steady_step E hV (LinePosition Start Direction 500 (1 / 60) 0)
      Rotation FMotionIntensityServiceData.Default
    have hs : (SnapPreviousTransform (LinePosition Start Direction 500 (1 / 60) 0)
        (E.Quaternion Rotation) (FMotionIntensityServiceData.Default :
          FMotionIntensityServiceData ℝ)).PreviousLocation
        = LinePosition Start Direction 500 (1 / 60) 0 := rfl
    rw [hs] at h2 h3
    refine ⟨h1, ?_, ?_⟩
    · show (CalculateMotionData E _ Rotation (1 / 60) _ _).2.PreviousLocation = _
      rw [h2]
      simp
    · show (CalculateMotionData E _ Rotation (1 / 60) _ _).1.LinearVelocityNormalized = _
      rw [h3]
      simp [(hE.eq_zero_iff (le_refl (0 : ℝ))).mpr rfl]
  | succ n ih =>
    obtain ⟨i1, i2, _⟩ := ih
    obtain ⟨h1, h2, h3⟩ := steady_step E hV
      (LinePosition Start Direction 500 (1 / 60) (n + 1)) Rotation
      (FeedSamples E (LinePosition Start Direction 500 (1 / 60)) Rotation (1 / 60)
        { (FMotionIntensityConfig.Default : FMotionIntensityConfig ℝ) with
          bCalculateAngularMotion := false }
        FMotionIntensityServiceData.Default n).2
    rw [snapPreviousTransform_of_settled _ _ _ i1, i2] at h2 h3
    have hk : (0 : ℝ) ≤ 25 / 3 * (1 - (5 / 6) ^ (n + 1)) := by
      have : ((5 : ℝ) / 6) ^ (n + 1) ≤ 1 := pow_le_one₀ (by norm_num) (by norm_num)
      nlinarith
    refine ⟨h1, ?_, ?_⟩
    · show (CalculateMotionData E _ Rotation (1 / 60) _ _).2.PreviousLocation = _
      rw [h2]
      simp only [LinePosition, FVector.mk.injEq]
      push_cast
      refine ⟨?_, ?_, ?_⟩ <;> ring
    · show (CalculateMotionData E _ Rotation (1 / 60) _ _).1.LinearVelocityNormalized = _
      rw [h3, hE.eq_of_mul_self hk]
      · ring
      · simp only [LinePosition]
        push_cast
        linear_combination
          (-((25 / 3 * (1 - (5 / 6) ^ (n + 1))) ^ 2)) * hunit

/-- Claim C18: end-to-end steady state. Starting from a freshly constructed entity state, with
only linear motion enabled, `MaxLinearVelocity = 1000`, all interpolation speeds 10 and no
clamping, feeding `CalculateMotionData` the positions of an object moving in a straight line at
constant speed 500 per time unit at consecutive steps of `DeltaTime = 1 / 60`, the returned
`LinearVelocityNormalized` at step `n` is `1 / 2 * (1 - (5 / 6) ^ n)`, and the sequence converges
to `1 / 2`; the engine vector interpolation is taken as the linear blend by
`Clamp (DeltaTime * InterpSpeed) 0 1` and the engine root as exact. -/
theorem steady_state_velocity_converges (E : FMath ℝ) (hE : E.SqrtExact) (hV : E.VInterpBlend)
    (Start Direction : FVector ℝ) (Rotation : FRotator ℝ)
    (hunit : Direction.X ^ 2 + Direction.Y ^ 2 + Direction.Z ^ 2 = 1) :
    (∀ n : ℕ,
      (FeedSamples E (LinePosition Start Direction 500 (1 / 60)) Rotation (1 / 60)
        { (FMotionIntensityConfig.Default : FMotionIntensityConfig ℝ) with
          bCalculateAngularMotion := false }
        FMotionIntensityServiceData.Default n).1.LinearVelocityNormalized
      = 1 / 2 * (1 - (5 / 6) ^ n))
    ∧ Filter.Tendsto
      (fun n : ℕ =>
        (FeedSamples E (LinePosition Start Direction 500 (1 / 60)) Rotation (1 / 60)
          { (FMotionIntensityConfig.Default : FMotionIntensityConfig ℝ) with
            bCalculateAngularMotion := false }
          FMotionIntensityServiceData.Default n).1.LinearVelocityNormalized)
      Filter.atTop (nhds (1 / 2)) := by
  have hclosed := fun n => (steady_closed_form E hE hV Start Direction Rotation hunit n).2.2
  refine ⟨hclosed, ?_⟩
  simp only [hclosed]
  have hp : Filter.Tendsto (fun n : ℕ => ((5 : ℝ) / 6) ^ n) Filter.atTop (nhds 0) :=
    tendsto_pow_atTop_nhds_zero_of_lt_one (by norm_num) (by norm_num)
  have := ((tendsto_const_nhds (x := (1 : ℝ))).sub hp).const_mul (1 / 2 : ℝ)
  simpa using this

/-- Instance of claim C18 over the reals: the idealised engine, start at the origin, motion
along `X`. -/
theorem steady_state_velocity_converges_witness :
    Filter.Tendsto
      (fun n : ℕ =>
        (FeedSamples (idealEngine Real.sqrt Real.pi) (LinePosition ⟨0, 0, 0⟩ ⟨1, 0, 0⟩ 500 (1 / 60))
          ⟨0, 0, 0⟩ (1 / 60)
          { (FMotionIntensityConfig.Default : FMotionIntensityConfig ℝ) with
            bCalculateAngularMotion := false }
          FMotionIntensityServiceData.Default n).1.LinearVelocityNormalized)
      Filter.atTop (nhds (1 / 2)) :=
  (steady_state_velocity_converges (idealEngine Real.sqrt Real.pi)
    (idealEngine_real_sqrtExact Real.pi) (fun _ _ _ _ => rfl) ⟨0, 0, 0⟩ ⟨1, 0, 0⟩ ⟨0, 0, 0⟩
    (by norm_num)).2

end SteadyState

/-! ## Aggregator: bounds for normalized input and relative weights -/

section AggregatorBounds

variable [LinearOrderedField α]

/-- Claim C21: bounded intensity for normalized input. For every motion-data record whose ten
channels all lie between 0 and 1 and every coefficient set with non-negative weights and
multiplier `m ≥ 0`, the linear intensity and the angular intensity each lie between 0 and `m`,
and so does the combined intensity. -/
theorem intensities_mem_of_inUnit (E : FMath α) (hE : E.SqrtExact) (h2 : E.Sqrt2Exact)
    (md : FMotionIntensityMotionData α) (c : FMotionIntensityCoefficients α)
    (hv : c.IsValid = true) (hm : 0 ≤ c.MotionIntensityMultiplier) (hd : md.InUnit) :
    (0 ≤ GetLinearMotionIntensityFromMotionData E md c
      ∧ GetLinearMotionIntensityFromMotionData E md c ≤ c.MotionIntensityMultiplier)
    ∧ (0 ≤ GetAngularMotionIntensityFromMotionData E md c
      ∧ GetAngularMotionIntensityFromMotionData E md c ≤ c.MotionIntensityMultiplier)
    ∧ (0 ≤ GetMotionIntensityFromMotionData E md c
      ∧ GetMotionIntensityFromMotionData E md c ≤ c.MotionIntensityMultiplier) := by
  have hl := linear_mem_of_inUnit E hE md c hv hm hd.1
  have ha : 0 ≤ GetAngularMotionIntensityFromMotionData E md c
      ∧ GetAngularMotionIntensityFromMotionData E md c ≤ c.MotionIntensityMultiplier := by
    rw [angular_eq_linear_swapAxes]
    exact linear_mem_of_inUnit E hE md.SwapAxes c.SwapAxes ((isValid_swapAxes c).trans hv) hm
      hd.2
  refine ⟨hl, ha, ?_⟩
  rw [combined_of_valid E md c hv, h2]
  exact combine_mem E hE _ _ _ hl.1 hl.2 ha.1 ha.2

/-- Instance of claim C21 over the reals: multiplier 3 on the default weights, channels between
0 and 1. -/
theorem intensities_mem_of_inUnit_witness :
    0 ≤ GetMotionIntensityFromMotionData (idealEngine Real.sqrt Real.pi)
        ⟨1, 1 / 2, 0, 1 / 4, 0, 1, 0, 1 / 3, 0, 1 / 5⟩ ⟨3, 0, 1, 1, 1, 1, 0, 1, 1, 1, 1⟩
    ∧ GetMotionIntensityFromMotionData (idealEngine Real.sqrt Real.pi)
        ⟨1, 1 / 2, 0, 1 / 4, 0, 1, 0, 1 / 3, 0, 1 / 5⟩ ⟨3, 0, 1, 1, 1, 1, 0, 1, 1, 1, 1⟩ ≤ 3 :=
  (intensities_mem_of_inUnit (idealEngine Real.sqrt Real.pi)
    (idealEngine_real_sqrtExact Real.pi) (idealEngine_sqrt2Exact Real.sqrt Real.pi)
    ⟨1, 1 / 2, 0, 1 / 4, 0, 1, 0, 1 / 3, 0, 1 / 5⟩ ⟨3, 0, 1, 1, 1, 1, 0, 1, 1, 1, 1⟩
    (by simp [FMotionIntensityCoefficients.IsValid])
    (by norm_num)
    (by
      simp only [FMotionIntensityMotionData.InUnit, FMotionIntensityMotionData.LinearInUnit,
        FMotionIntensityMotionData.SwapAxes]
      norm_num)).2.2

theorem isValid_scaleLinearWeights (c : FMotionIntensityCoefficients α) (k : α) (hk : 0 < k)
    (hv : c.IsValid = true) : (c.ScaleLinearWeights k).IsValid = true := by
  simp only [FMotionIntensityCoefficients.IsValid, Bool.and_eq_true, decide_eq_true_eq,
    ge_iff_le] at hv
  obtain ⟨⟨⟨⟨⟨⟨⟨⟨⟨h1, h2⟩, h3⟩, h4⟩, h5⟩, h6⟩, h7⟩, h8⟩, h9⟩, h10⟩ := hv
  simp only [FMotionIntensityCoefficients.IsValid,
    FMotionIntensityCoefficients.ScaleLinearWeights, Bool.and_eq_true, decide_eq_true_eq,
    ge_iff_le]
  exact ⟨⟨⟨⟨⟨⟨⟨⟨⟨mul_nonneg hk.le h1, mul_nonneg hk.le h2⟩, mul_nonneg hk.le h3⟩,
    mul_nonneg hk.le h4⟩, mul_nonneg hk.le h5⟩, h6⟩, h7⟩, h8⟩, h9⟩, h10⟩

theorem linearSumOfSquares_scale (md : FMotionIntensityMotionData α)
    (c : FMotionIntensityCoefficients α) (k : α) :
    LinearSumOfSquares md (c.ScaleLinearWeights k) = k * k * LinearSumOfSquares md c := by
  simp only [LinearSumOfSquares, FMotionIntensityCoefficients.ScaleLinearWeights]
  ring

theorem linearWeightSquares_scale (c : FMotionIntensityCoefficients α) (k : α) :
    LinearWeightSquares (c.ScaleLinearWeights k) = k * k * LinearWeightSquares c := by
  simp only [LinearWeightSquares, FMotionIntensityCoefficients.ScaleLinearWeights]
  ring

theorem sqrt_scale (E : FMath α) (hE : E.SqrtExact) (k x : α) (hk : 0 < k) (hx : 0 ≤ x) :
    E.Sqrt (k * k * x) = k * E.Sqrt x := by
  apply hE.eq_of_mul_self (mul_nonneg hk.le (hE.nonneg hx))
  have := hE.mul_self hx
  calc k * E.Sqrt x * (k * E.Sqrt x) = k * k * (E.Sqrt x * E.Sqrt x) := by ring
    _ = k * k * x := by rw [this]

/-- With valid weights and an exact root, multiplying the five linear weights by `k > 0` leaves
the linear intensity unchanged. -/
theorem linear_scaleLinearWeights (E : FMath α) (hE : E.SqrtExact)
    (md : FMotionIntensityMotionData α) (c : FMotionIntensityCoefficients α)
    (hv : c.IsValid = true) (k : α) (hk : 0 < k) :
    GetLinearMotionIntensityFromMotionData E md (c.ScaleLinearWeights k)
      = GetLinearMotionIntensityFromMotionData E md c := by
  rw [linear_eq_ratio E hE md _ (isValid_scaleLinearWeights c k hk hv),
    linear_eq_ratio E hE md c hv, linearSumOfSquares_scale, linearWeightSquares_scale,
    sqrt_scale E hE k _ hk (linearSumOfSquares_nonneg md c),
    sqrt_scale E hE k _ hk (linearWeightSquares_nonneg c)]
  have hkk : k * k ≠ 0 := mul_ne_zero hk.ne' hk.ne'
  by_cases hS : LinearSumOfSquares md c = 0
  · rw [if_pos hS, if_pos (by rw [hS, mul_zero])]
  · rw [if_neg hS, if_neg (mul_ne_zero hkk hS), mul_div_mul_left _ _ hk.ne']
    rfl

theorem linear_scaleMultiplier (E : FMath α) (md : FMotionIntensityMotionData α)
    (c : FMotionIntensityCoefficients α) (t : α) :
    GetLinearMotionIntensityFromMotionData E md (c.ScaleMultiplier t)
      = t * GetLinearMotionIntensityFromMotionData E md c := by
  have hV : (c.ScaleMultiplier t).IsValid = c.IsValid := rfl
  unfold GetLinearMotionIntensityFromMotionData
  rw [hV]
  simp only [FMotionIntensityCoefficients.ScaleMultiplier]
  split_ifs <;> ring

/-- Claim C24: weights are relative. For every motion-data record, every valid coefficient set
and every `k > 0`, multiplying the five linear weights by `k` leaves the linear intensity
unchanged and multiplying the five angular weights by `k` leaves the angular intensity
unchanged; multiplying the multiplier by `t` multiplies both intensities by `t`. -/
theorem intensity_weights_relative (E : FMath α) (hE : E.SqrtExact)
    (md : FMotionIntensityMotionData α) (c : FMotionIntensityCoefficients α)
    (hv : c.IsValid = true) (k : α) (hk : 0 < k) :
    GetLinearMotionIntensityFromMotionData E md (c.ScaleLinearWeights k)
      = GetLinearMotionIntensityFromMotionData E md c
    ∧ GetAngularMotionIntensityFromMotionData E md (c.ScaleAngularWeights k)
      = GetAngularMotionIntensityFromMotionData E md c
    ∧ (∀ t : α,
        GetLinearMotionIntensityFromMotionData E md (c.ScaleMultiplier t)
          = t * GetLinearMotionIntensityFromMotionData E md c
        ∧ GetAngularMotionIntensityFromMotionData E md (c.ScaleMultiplier t)
          = t * GetAngularMotionIntensityFromMotionData E md c) := by
  refine ⟨linear_scaleLinearWeights E hE md c hv k hk, ?_, ?_⟩
  · rw [angular_eq_linear_swapAxes, angular_eq_linear_swapAxes]
    exact linear_scaleLinearWeights E hE md.SwapAxes c.SwapAxes
      ((isValid_swapAxes c).trans hv) k hk
  · intro t
    refine ⟨linear_scaleMultiplier E md c t, ?_⟩
    rw [angular_eq_linear_swapAxes, angular_eq_linear_swapAxes]
    exact linear_scaleMultiplier E md.SwapAxes c.SwapAxes t

/-- Instance of claim C24 over the reals: the default weights with multiplier 3, linear weights
multiplied by 7. -/
theorem intensity_weights_relative_witness :
    GetLinearMotionIntensityFromMotionData (idealEngine Real.sqrt Real.pi)
        ⟨1, 1 / 2, 0, 1 / 4, 0, 1, 0, 1 / 3, 0, 1 / 5⟩
        ((⟨3, 0, 1, 1, 1, 1, 0, 1, 1, 1, 1⟩ :
          FMotionIntensityCoefficients ℝ).ScaleLinearWeights 7)
      = GetLinearMotionIntensityFromMotionData (idealEngine Real.sqrt Real.pi)
        ⟨1, 1 / 2, 0, 1 / 4, 0, 1, 0, 1 / 3, 0, 1 / 5⟩ ⟨3, 0, 1, 1, 1, 1, 0, 1, 1, 1, 1⟩ :=
  (intensity_weights_relative (idealEngine Real.sqrt Real.pi)
    (idealEngine_real_sqrtExact Real.pi) ⟨1, 1 / 2, 0, 1 / 4, 0, 1, 0, 1 / 3, 0, 1 / 5⟩
    ⟨3, 0, 1, 1, 1, 1, 0, 1, 1, 1, 1⟩ (by simp [FMotionIntensityCoefficients.IsValid]) 7
    (by norm_num)).1

end AggregatorBounds

/-! ## Update: non-negative channels and the jerk cells -/

section UpdateInvariants

theorem snapPreviousTransform_jerk (loc : FVector α) (q : FQuat α)
    (sd : FMotionIntensityServiceData α) :
    (SnapPreviousTransform loc q sd).PreviousLinearJerk = sd.PreviousLinearJerk
    ∧ (SnapPreviousTransform loc q sd).PreviousAngularJerk = sd.PreviousAngularJerk := by
  unfold SnapPreviousTransform
  split_ifs
  · exact ⟨rfl, rfl⟩
  · exact ⟨rfl, rfl⟩

variable [LinearOrderedField α]

theorem default_allNonneg :
    (FMotionIntensityMotionData.Default : FMotionIntensityMotionData α).AllNonneg := by
  simp [FMotionIntensityMotionData.AllNonneg, FMotionIntensityMotionData.Default]

theorem length_nonneg (E : FMath α) (hS : ∀ x, 0 ≤ x → 0 ≤ E.Sqrt x) (v : FVector α) :
    0 ≤ v.Length E :=
  hS _ (add_nonneg (add_nonneg (mul_self_nonneg _) (mul_self_nonneg _)) (mul_self_nonneg _))

theorem linearVelocityNormalizedOf_nonneg (E : FMath α) (hS : ∀ x, 0 ≤ x → 0 ≤ E.Sqrt x)
    (loc : FVector α) (dt : α) (cfg : FMotionIntensityConfig α)
    (sd : FMotionIntensityServiceData α) (hdt : 0 < dt) (hmax : 0 < cfg.MaxLinearVelocity) :
    0 ≤ LinearVelocityNormalizedOf E loc dt cfg sd := by
  have hv : 0 ≤ (GetLinearVelocitySmoothed E loc sd.PreviousLocation dt
      cfg.LocationInterpolationSpeed).1 / cfg.MaxLinearVelocity := by
    rw [getLinearVelocitySmoothed_of_pos E _ _ _ _ hdt]
    exact div_nonneg (div_nonneg (length_nonneg E hS _) hdt.le) hmax.le
  unfold LinearVelocityNormalizedOf
  split_ifs
  · exact le_min zero_le_one hv
  · exact hv

theorem angularVelocityNormalizedOf_nonneg (E : FMath α)
    (hA : ∀ a b, 0 ≤ E.AngularDistance a b) (hPI : 0 < E.PI) (rot : FQuat α) (dt : α)
    (cfg : FMotionIntensityConfig α) (sd : FMotionIntensityServiceData α) (hdt : 0 < dt)
    (hmax : 0 < cfg.MaxAngularVelocity) :
    0 ≤ AngularVelocityNormalizedOf E rot dt cfg sd := by
  have hv : 0 ≤ (GetAngularVelocitySmoothed E rot sd.PreviousRotation dt
      cfg.RotationInterpolationSpeed).1 / cfg.MaxAngularVelocity := by
    simp only [GetAngularVelocitySmoothed, if_neg (not_le.mpr hdt)]
    exact div_nonneg (div_nonneg (div_nonneg (hA _ _) (mul_pos two_pos hPI).le) hdt.le) hmax.le
  unfold AngularVelocityNormalizedOf
  split_ifs
  · exact le_min zero_le_one hv
  · exact hv

theorem calculateLinearMotionData_allNonneg (E : FMath α) (hS : ∀ x, 0 ≤ x → 0 ≤ E.Sqrt x)
    (loc : FVector α) (dt : α) (cfg : FMotionIntensityConfig α)
    (sd : FMotionIntensityServiceData α) (md : FMotionIntensityMotionData α) (hdt : 0 < dt)
    (hmax : 0 < cfg.MaxLinearVelocity) (hmd : md.AllNonneg) :
    (CalculateLinearMotionData E loc dt cfg sd md).2.AllNonneg := by
  rw [calculateLinearMotionData_of_pos E _ _ _ _ _ hdt]
  obtain ⟨_, _, _, _, _, h6, h7, h8, h9, h10⟩ := hmd
  exact ⟨linearVelocityNormalizedOf_nonneg E hS loc dt cfg sd hdt hmax, le_max_left _ _,
    abs_nonneg _, le_max_left _ _, abs_nonneg _, h6, h7, h8, h9, h10⟩

theorem calculateAngularMotionData_allNonneg (E : FMath α)
    (hA : ∀ a b, 0 ≤ E.AngularDistance a b) (hPI : 0 < E.PI) (rot : FQuat α) (dt : α)
    (cfg : FMotionIntensityConfig α) (sd : FMotionIntensityServiceData α)
    (md : FMotionIntensityMotionData α) (hdt : 0 < dt) (hmax : 0 < cfg.MaxAngularVelocity)
    (hmd : md.AllNonneg) :
    (CalculateAngularMotionData E rot dt cfg sd md).2.AllNonneg := by
  rw [calculateAngularMotionData_of_pos E _ _ _ _ _ hdt]
  obtain ⟨h1, h2, h3, h4, h5, _, _, _, _, _⟩ := hmd
  exact ⟨h1, h2, h3, h4, h5, angularVelocityNormalizedOf_nonneg E hA hPI rot dt cfg sd hdt hmax,
    le_max_left _ _, abs_nonneg _, le_max_left _ _, abs_nonneg _⟩

/-- Claim C22: every channel of every record returned by `CalculateMotionData` is non-negative,
for all inputs (any elapsed time, configuration, state and samples), for an engine whose root of
a non-negative number is non-negative, whose angular distance is non-negative and whose `PI` is
positive. -/
theorem calculateMotionData_allNonneg (E : FMath α) (hS : ∀ x, 0 ≤ x → 0 ≤ E.Sqrt x)
    (hA : ∀ a b, 0 ≤ E.AngularDistance a b) (hPI : 0 < E.PI) (Location : FVector α)
    (Rotation : FRotator α) (DeltaTime : α) (Config : FMotionIntensityConfig α)
    (ServiceData : FMotionIntensityServiceData α) :
    (CalculateMotionData E Location Rotation DeltaTime Config ServiceData).1.AllNonneg := by
  by_cases hdt : DeltaTime ≤ 0
  · rw [calculateMotionData_eq_of_nonpos E _ _ _ _ _ hdt]
    exact default_allNonneg
  · have hpos : 0 < DeltaTime := not_le.mp hdt
    cases hv : Config.IsValid
    · rw [calculateMotionData_eq_of_invalid E _ _ _ _ _ hv]
      exact default_allNonneg
    · have hv' := hv
      simp only [FMotionIntensityConfig.IsValid, Bool.and_eq_true, decide_eq_true_eq,
        gt_iff_lt] at hv'
      obtain ⟨⟨⟨⟨⟨⟨⟨hml, _⟩, _⟩, _⟩, hma⟩, _⟩, _⟩, _⟩ := hv'
      rw [calculateMotionData_of_valid E _ _ _ _ _ hpos hv]
      have hlin : (if Config.bCalculateLinearMotion then
            CalculateLinearMotionData E Location DeltaTime Config
              (SnapPreviousTransform Location (E.Quaternion Rotation) ServiceData)
              FMotionIntensityMotionData.Default
          else (SnapPreviousTransform Location (E.Quaternion Rotation) ServiceData,
                FMotionIntensityMotionData.Default)).2.AllNonneg := by
        split_ifs
        · exact calculateLinearMotionData_allNonneg E hS _ _ _ _ _ hpos hml default_allNonneg
        · exact default_allNonneg
      cases ha : Config.bCalculateAngularMotion
      · simp only [Bool.false_eq_true, if_false]
        exact hlin
      · simp only [if_true]
        exact calculateAngularMotionData_allNonneg E hA hPI _ _ _ _ _ hpos hma hlin

/-- Instance of claim C22 over the reals: the default configuration, a state that already holds
a location, and a sample 6000 further along `X` after `1 / 60`. -/
theorem calculateMotionData_allNonneg_witness :
    (CalculateMotionData (idealEngine Real.sqrt Real.pi) ⟨6000, 0, 0⟩ ⟨0, 90, 0⟩ (1 / 60)
        FMotionIntensityConfig.Default
        { (FMotionIntensityServiceData.Default : FMotionIntensityServiceData ℝ) with
          bSetPreviousTransformToCurrent := false }).1.AllNonneg :=
  calculateMotionData_allNonneg (idealEngine Real.sqrt Real.pi)
    (fun x _ => Real.sqrt_nonneg x) (fun _ _ => le_refl (0 : ℝ)) Real.pi_pos _ _ _ _ _

/-- Claim C23: the stored jerk cells are never written by an update. For every call of
`CalculateMotionData` and of `GetMotionIntensity`, with any inputs and any enabled pipelines,
`PreviousLinearJerk` and `PreviousAngularJerk` of the entity state are the same after the call
as before it; `ResetServiceData` sets both to 0. -/
theorem jerk_cells_unchanged (E : FMath α) (Location : FVector α) (Rotation : FRotator α)
    (DeltaTime : α) (Config : FMotionIntensityConfig α)
    (ServiceData : FMotionIntensityServiceData α)
    (Coefficients : FMotionIntensityCoefficients α) :
    ((CalculateMotionData E Location Rotation DeltaTime Config ServiceData).2.PreviousLinearJerk
        = ServiceData.PreviousLinearJerk
      ∧ (CalculateMotionData E Location Rotation DeltaTime Config
          ServiceData).2.PreviousAngularJerk = ServiceData.PreviousAngularJerk)
    ∧ ((GetMotionIntensity E Location Rotation DeltaTime Config ServiceData
          Coefficients).2.PreviousLinearJerk = ServiceData.PreviousLinearJerk
      ∧ (GetMotionIntensity E Location Rotation DeltaTime Config ServiceData
          Coefficients).2.PreviousAngularJerk = ServiceData.PreviousAngularJerk)
    ∧ ((ResetServiceData ServiceData).PreviousLinearJerk = 0
      ∧ (ResetServiceData ServiceData).PreviousAngularJerk = 0) := by
  have h : (CalculateMotionData E Location Rotation DeltaTime Config
        ServiceData).2.PreviousLinearJerk = ServiceData.PreviousLinearJerk
      ∧ (CalculateMotionData E Location Rotation DeltaTime Config
          ServiceData).2.PreviousAngularJerk = ServiceData.PreviousAngularJerk := by
    by_cases hdt : DeltaTime ≤ 0
    · rw [calculateMotionData_eq_of_nonpos E _ _ _ _ _ hdt]
      exact ⟨rfl, rfl⟩
    · have hpos : 0 < DeltaTime := not_le.mp hdt
      cases hv : Config.IsValid
      · rw [calculateMotionData_eq_of_invalid E _ _ _ _ _ hv]
        exact ⟨rfl, rfl⟩
      · rw [calculateMotionData_of_valid E _ _ _ _ _ hpos hv]
        obtain ⟨s1, s2⟩ := snapPreviousTransform_jerk Location (E.Quaternion Rotation)
          ServiceData
        cases hl : Config.bCalculateLinearMotion <;>
          cases ha : Config.bCalculateAngularMotion <;>
          simp [calculateLinearMotionData_of_pos E _ _ _ _ _ hpos,
            calculateAngularMotionData_of_pos E _ _ _ _ _ hpos, s1, s2]
  exact ⟨h, h, rfl, rfl⟩

end UpdateInvariants

end MotionIntensity
